import Mathlib

/-!
Verification development for the Scoreboard repository.

The definitions below are a shallow embedding of the live-scoreboard core:
the game-state reducer and its helpers (`src/scoreboard-app/src/App.tsx`,
store section), the default snapshot (`src/scoreboard-app/src/constants.ts`)
and the persisted-payload codec (`parsePayload` / `savePayload`).

Modelling conventions:
- JavaScript numbers that the core only ever treats as integers are `Int`.
- `Date.now()` is passed in explicitly as a `now : Int` argument wherever the
  source calls it (generated player ids, payload timestamps).
- The textual JSON layer of the codec is modelled by a tree of records with
  optional fields (`ParsedPayload`): `JSON.parse` of a `JSON.stringify` of a
  full snapshot yields the tree with every field present, and unparseable or
  null input is the `malformed` constructor.
- Optional TS fields become `Option`; JS truthiness tests on strings check
  `isEmpty`, on numbers check `= 0`, and on nullable objects check `isSome`.
-/

set_option maxRecDepth 4096

namespace Scoreboard

/-- The two teams, `"A" | "B"` in the source. -/
inductive Team where
  | A
  | B
  deriving DecidableEq

/-- `"NBA" | "FIBA"` timing mode. -/
inductive TimingMode where
  | NBA
  | FIBA
  deriving DecidableEq

/-- Overlay mode `"timeout" | "halftime"`; the nullable field uses `Option`. -/
inductive OverlayMode where
  | timeout
  | halftime
  deriving DecidableEq

/-- Live player record (`PlayerState` in `types.ts`, as built by
`buildLivePlayers` / `createPlayerState`). -/
structure PlayerState where
  id : String
  number : Int
  name : String
  imageUrl : String
  pts : Int
  reb : Int
  ast : Int
  stl : Int
  blk : Int
  tpm : Int
  fls : Int
  secondsPlayed : Int
  onCourt : Bool
  fouledOut : Bool
  deriving DecidableEq

/-- Per-team scoreboard record. -/
structure TeamRecord where
  name : String
  score : Int
  fouls : Int
  timeouts : Int
  fastBreakPoints : Int
  color : String
  logoUrl : String
  deriving DecidableEq

/-- The TV star-player highlight record (nullable in the state). -/
structure TvStarPlayer where
  team : Team
  playerId : String
  remainingSeconds : Int
  reason : String
  auto : Bool
  deriving DecidableEq

/-- The TV team-comparison highlight record (nullable in the state). -/
structure TvTeamComparison where
  metric : String
  teamAValue : Int
  teamBValue : Int
  leadingTeam : Team
  remainingSeconds : Int
  deriving DecidableEq

/-- The authoritative scoreboard state (`ScoreboardState` in `types.ts`,
fields as in `defaultState` of `constants.ts`). -/
structure ScoreboardState where
  teamA : TeamRecord
  teamB : TeamRecord
  possession : Team
  quarter : Int
  totalQuarters : Int
  quarterLengthMinutes : Int
  foulLimit : Int
  gameClockSeconds : Int
  shotClockDefault : Int
  shotClockSeconds : Int
  gameClockRunning : Bool
  shotClockRunning : Bool
  timingMode : TimingMode
  shotViolation : Bool
  gameFinal : Bool
  overlayMode : Option OverlayMode
  overlayLabel : String
  overlayRemainingSeconds : Int
  overlayResumeGame : Bool
  tvAutoCooldownSeconds : Int
  tvAutoSeen : List String
  tvStarPlayer : Option TvStarPlayer
  tvTeamComparison : Option TvTeamComparison
  deriving DecidableEq

/-- The `players` field of the payload: one roster per team. -/
structure TeamPlayers where
  A : List PlayerState
  B : List PlayerState
  deriving DecidableEq

/-- The persisted snapshot (`PersistedPayload` in `types.ts`): the unit of
persistence and cross-instance synchronization. -/
structure PersistedPayload where
  state : ScoreboardState
  players : TeamPlayers
  actionLog : List String
  updatedAt : Int
  deriving DecidableEq

/-- Roster entry handed to `LOAD_GAME` (`{ name; number; imageUrl? }`). -/
structure RosterEntry where
  name : String
  number : Int
  imageUrl : Option String
  deriving DecidableEq

/-- `LoadGameTeamInput` of the store section of `App.tsx`. -/
structure LoadGameTeamInput where
  name : String
  color : Option String
  logoUrl : Option String
  players : List RosterEntry
  deriving DecidableEq

/-- `LoadGameRulesInput`: every field optional. -/
structure LoadGameRulesInput where
  quarterLengthMinutes : Option Int
  totalQuarters : Option Int
  shotClockDefault : Option Int
  foulLimit : Option Int
  timingMode : Option TimingMode
  deriving DecidableEq

/-- The `updates` object of `UPDATE_PLAYER`
(`Partial` over `name`, `number`, `onCourt`). -/
structure PlayerUpdates where
  name : Option String
  number : Option Int
  onCourt : Option Bool
  deriving DecidableEq

/-- The stat field of `INC_PLAYER_STAT` (`"reb" | "ast" | "stl" | "blk" | "fls"`). -/
inductive IncStat where
  | reb
  | ast
  | stl
  | blk
  | fls
  deriving DecidableEq

/-- `ScoreboardAction`: the closed tagged union dispatched to the reducer. -/
inductive ScoreboardAction where
  | ADD_POINTS (team : Team) (points : Int) (playerId : Option String)
  | ADD_FAST_BREAK_POINTS (team : Team) (points : Int)
  | SET_TEAM_NAME (team : Team) (name : String)
  | SET_TEAM_COLOR (team : Team) (color : String)
  | SET_TEAM_LOGO (team : Team) (logoUrl : String)
  | LOAD_GAME (home away : LoadGameTeamInput) (rules : Option LoadGameRulesInput)
  | SET_POSSESSION (team : Team)
  | START_GAME
  | STOP_GAME
  | FINISH_GAME
  | START_SHOT
  | STOP_SHOT
  | RESET_QUARTER
  | PREV_QUARTER
  | NEXT_QUARTER
  | RESET_SHOT (seconds : Int)
  | INC_FOUL (team : Team)
  | USE_TIMEOUT (team : Team)
  | OPEN_TIMEOUT (team : Team) (seconds : Int)
  | START_HALFTIME (minutes : Int)
  | END_OVERLAY (manual : Option Bool)
  | SHOW_TV_STAR_PLAYER (team : Team) (playerId : String)
  | DISMISS_TV_STAR_PLAYER
  | INC_PLAYER_STAT (team : Team) (playerId : String) (stat : IncStat) (amount : Option Int)
  | SET_PLAYER_ON_COURT (team : Team) (playerId : String) (onCourt : Bool)
  | SUBSTITUTE_PLAYER (team : Team) (playerOutId playerInId : String)
  | ADD_PLAYER (team : Team) (name : String) (number : Int) (onCourt : Bool)
  | UPDATE_PLAYER (team : Team) (playerId : String) (updates : PlayerUpdates)
  | DELETE_PLAYER (team : Team) (playerId : String)
  | ADD_LOG (text : String)
  | TICK
  | HYDRATE (payload : PersistedPayload)

/-- Team letter used when the source interpolates the team key into a string. -/
def teamLetter : Team → String
  | .A => "A"
  | .B => "B"

/-- The other team (`team === "A" ? "B" : "A"`). -/
def otherTeam : Team → Team
  | .A => .B
  | .B => .A

/-- `payload.players[team]`. -/
def getPlayers (payload : PersistedPayload) : Team → List PlayerState
  | .A => payload.players.A
  | .B => payload.players.B

/-- Replace `payload.players[team]` (the object-spread update in the source). -/
def setPlayersList (payload : PersistedPayload) : Team → List PlayerState → PersistedPayload
  | .A, l => { payload with players := { payload.players with A := l } }
  | .B, l => { payload with players := { payload.players with B := l } }

/-- `state[teamStateKey(team)]`. -/
def teamRec (state : ScoreboardState) : Team → TeamRecord
  | .A => state.teamA
  | .B => state.teamB

/-- Replace `state[teamStateKey(team)]`. -/
def setTeamRec (state : ScoreboardState) : Team → TeamRecord → ScoreboardState
  | .A, r => { state with teamA := r }
  | .B, r => { state with teamB := r }

/-- `String.padStart(2, "0")` specialised to the seconds component. -/
def padStart2 (s : String) : String :=
  if s.length ≥ 2 then s else if s.length = 1 then "0" ++ s else "00" ++ s

/-- `formatClock` of the store section: `minutes:seconds` with the seconds
zero-padded. `Math.floor` is floor division; clock values are non-negative in
practice, where `Int.emod` agrees with the JS remainder. -/
def formatClock (totalSeconds : Int) : String :=
  let m := Int.fdiv totalSeconds 60
  let s := Int.emod totalSeconds 60
  toString m ++ ":" ++ padStart2 (toString s)

/-- `withActionLog`: prefix a timestamped entry and cap the log at 250. -/
def withActionLog (payload : PersistedPayload) (text : String) : PersistedPayload :=
  let q := payload.state.quarter
  let entry := "[Q" ++ toString q ++ " - " ++ formatClock payload.state.gameClockSeconds ++ "] " ++ text
  { payload with actionLog := (entry :: payload.actionLog).take 250 }

/-- Sum of the players' individual foul counts
(`reduce((sum, p) => sum + (p.fls || 0), 0)`; `p.fls` is always a number here). -/
def sumFls (l : List PlayerState) : Int :=
  l.foldl (fun sum p => sum + p.fls) 0

/-- `recalcTeamFouls`: derive the team foul counter from the player records. -/
def recalcTeamFouls (payload : PersistedPayload) (team : Team) : PersistedPayload :=
  let total := sumFls (getPlayers payload team)
  { payload with
    state := setTeamRec payload.state team { teamRec payload.state team with fouls := total } }

def HIGHLIGHT_COOLDOWN_SECONDS : Int := 22

def PLAYER_HIGHLIGHT_SECONDS : Int := 10

def TEAM_HIGHLIGHT_SECONDS : Int := 10

def POINTS_MILESTONES : List Int := [10, 15, 20, 25, 30, 35, 40]

def REB_MILESTONES : List Int := [8, 10, 12, 15, 18, 20]

def STL_MILESTONES : List Int := [3, 4, 5, 6]

def BLK_MILESTONES : List Int := [3, 4, 5, 6]

def TPM_MILESTONES : List Int := [3, 4, 5, 6, 7, 8]

/-- `highestMilestone`: last milestone in the ascending list not above `value`. -/
def highestMilestone (value : Int) (milestones : List Int) : Int :=
  milestones.foldl (fun result m => if value ≥ m then m else result) 0

/-- `allPlayers`: both rosters concatenated. -/
def allPlayers (payload : PersistedPayload) : List PlayerState :=
  payload.players.A ++ payload.players.B

/-- `canAutoHighlight`: no highlight of either kind showing and the auto
cooldown is not positive. -/
def canAutoHighlight (payload : PersistedPayload) : Bool :=
  payload.state.tvStarPlayer.isNone && payload.state.tvTeamComparison.isNone &&
    decide (payload.state.tvAutoCooldownSeconds ≤ 0)

/-- `markSeen`: move `key` to the front of the seen set, cap at 400. -/
def markSeen (state : ScoreboardState) (key : String) : ScoreboardState :=
  { state with tvAutoSeen := (key :: state.tvAutoSeen.filter (fun item => item != key)).take 400 }

/-- `list.find(p => p.id === playerId)`. -/
def findById (playerId : String) : List PlayerState → Option PlayerState
  | [] => none
  | p :: rest => if p.id = playerId then some p else findById playerId rest

/-- `players.filter(p => p.onCourt).length`. -/
def countOnCourt : List PlayerState → Nat
  | [] => 0
  | p :: rest => (if p.onCourt then 1 else 0) + countOnCourt rest

/-- `showAutoPlayerHighlight`, restructured to return `none` exactly on the
branches where the source returns the input object unchanged (the caller
tests `next !== payload`, i.e. whether a fresh object was produced). -/
def showAutoPlayerHighlightOpt (payload : PersistedPayload) (team : Team)
    (playerId reason key : String) : Option PersistedPayload :=
  if !canAutoHighlight payload then none
  else if payload.state.tvAutoSeen.contains key then none
  else
    match findById playerId (getPlayers payload team) with
    | none => none
    | some player =>
      let teamName := (teamRec payload.state team).name
      some (withActionLog
        { payload with
          state :=
            { markSeen payload.state key with
              tvAutoCooldownSeconds := HIGHLIGHT_COOLDOWN_SECONDS
              tvStarPlayer := some
                { team := team, playerId := playerId,
                  remainingSeconds := PLAYER_HIGHLIGHT_SECONDS, reason := reason, auto := true }
              tvTeamComparison := none } }
        ("TV Auto Highlight: " ++ player.name ++ " #" ++ toString player.number ++
          " (" ++ teamName ++ ") - " ++ reason))

/-- The original `showAutoPlayerHighlight`: the fired payload, else the input. -/
def showAutoPlayerHighlight (payload : PersistedPayload) (team : Team)
    (playerId reason key : String) : PersistedPayload :=
  (showAutoPlayerHighlightOpt payload team playerId reason key).getD payload

/-- `totalTeamRebounds`. -/
def totalTeamRebounds (payload : PersistedPayload) (team : Team) : Int :=
  (getPlayers payload team).foldl (fun sum p => sum + p.reb) 0

/-- The rebound-margin block of `maybeAutoTeamComparison`; `some` exactly when
that block returns a fresh payload. `Math.abs` of the Int difference is
`natAbs`, and the bucket arithmetic then happens on the non-negative margin. -/
def teamComparisonReb (payload : PersistedPayload) : Option PersistedPayload :=
  let rebA := totalTeamRebounds payload .A
  let rebB := totalTeamRebounds payload .B
  let rebDiff : Nat := (rebA - rebB).natAbs
  let rebLeader : Option Team :=
    if rebA = rebB then none else if rebA > rebB then some Team.A else some Team.B
  match rebLeader with
  | none => none
  | some leader =>
    if rebDiff ≥ 6 ∧ rebA + rebB ≥ 18 then
      let bucket := rebDiff / 3 * 3
      let key := "team:rebounds:" ++ teamLetter leader ++ ":" ++ toString bucket
      if payload.state.tvAutoSeen.contains key then none
      else
        let leaderName := (teamRec payload.state leader).name
        some (withActionLog
          { payload with
            state :=
              { markSeen payload.state key with
                tvAutoCooldownSeconds := HIGHLIGHT_COOLDOWN_SECONDS
                tvStarPlayer := none
                tvTeamComparison := some
                  { metric := "rebounds", teamAValue := rebA, teamBValue := rebB,
                    leadingTeam := leader, remainingSeconds := TEAM_HIGHLIGHT_SECONDS } } }
          ("TV Auto Team Comparison: Rebounds edge for " ++ leaderName))
    else none

/-- The fast-break block of `maybeAutoTeamComparison`. -/
def teamComparisonFb (payload : PersistedPayload) : Option PersistedPayload :=
  let fbA := payload.state.teamA.fastBreakPoints
  let fbB := payload.state.teamB.fastBreakPoints
  let fbDiff : Nat := (fbA - fbB).natAbs
  let fbLeader : Option Team :=
    if fbA = fbB then none else if fbA > fbB then some Team.A else some Team.B
  match fbLeader with
  | none => none
  | some leader =>
    if fbDiff ≥ 4 ∧ fbA + fbB ≥ 8 then
      let bucket := fbDiff / 2 * 2
      let key := "team:fastBreakPoints:" ++ teamLetter leader ++ ":" ++ toString bucket
      if payload.state.tvAutoSeen.contains key then none
      else
        let leaderName := (teamRec payload.state leader).name
        some (withActionLog
          { payload with
            state :=
              { markSeen payload.state key with
                tvAutoCooldownSeconds := HIGHLIGHT_COOLDOWN_SECONDS
                tvStarPlayer := none
                tvTeamComparison := some
                  { metric := "fastBreakPoints", teamAValue := fbA, teamBValue := fbB,
                    leadingTeam := leader, remainingSeconds := TEAM_HIGHLIGHT_SECONDS } } }
          ("TV Auto Team Comparison: Fast break edge for " ++ leaderName))
    else none

/-- `maybeAutoTeamComparison`: rebound trigger first, then fast break. -/
def maybeAutoTeamComparison (payload : PersistedPayload) : PersistedPayload :=
  if !canAutoHighlight payload then payload
  else
    match teamComparisonReb payload with
    | some next => next
    | none => (teamComparisonFb payload).getD payload

/-- The five stats tracked by the player-milestone path. -/
inductive TrackedStat where
  | pts
  | reb
  | stl
  | blk
  | tpm
  deriving DecidableEq

def statValue (p : PlayerState) : TrackedStat → Int
  | .pts => p.pts
  | .reb => p.reb
  | .stl => p.stl
  | .blk => p.blk
  | .tpm => p.tpm

def statMilestones : TrackedStat → List Int
  | .pts => POINTS_MILESTONES
  | .reb => REB_MILESTONES
  | .stl => STL_MILESTONES
  | .blk => BLK_MILESTONES
  | .tpm => TPM_MILESTONES

def statLabel : TrackedStat → String
  | .pts => "pts"
  | .reb => "reb"
  | .stl => "stl"
  | .blk => "blk"
  | .tpm => "tpm"

/-- League-wide maximum of a stat over every player in the game
(`reduce((max, p) => Math.max(max, p.stat), 0)`). -/
def maxStat (payload : PersistedPayload) (s : TrackedStat) : Int :=
  (allPlayers payload).foldl (fun m p => max m (statValue p s)) 0

/-- The reason string of each milestone branch. -/
def statReason (s : TrackedStat) (p : PlayerState) : String :=
  match s with
  | .pts => "High Scorer " ++ toString p.pts ++ " PTS"
  | .reb => "Top Rebounder " ++ toString p.reb ++ " REB"
  | .stl => "Steals Impact " ++ toString p.stl ++ " STL"
  | .blk => "Rim Protection " ++ toString p.blk ++ " BLK"
  | .tpm => "Deep Range " ++ toString p.tpm ++ " 3PM"

/-- The composite dedup key `player:team:id:stat:milestone`. -/
def statKey (team : Team) (playerId : String) (s : TrackedStat) (milestone : Int) : String :=
  "player:" ++ teamLetter team ++ ":" ++ playerId ++ ":" ++ statLabel s ++ ":" ++ toString milestone

/-- One stat block of `maybeAutoPlayerHighlight`: guard on a reached milestone
and on holding the league-wide maximum, then attempt to fire. -/
def tryPlayerMilestone (payload : PersistedPayload) (team : Team) (playerId : String)
    (player : PlayerState) (s : TrackedStat) : Option PersistedPayload :=
  let milestone := highestMilestone (statValue player s) (statMilestones s)
  if milestone > 0 ∧ statValue player s = maxStat payload s then
    showAutoPlayerHighlightOpt payload team playerId (statReason s player)
      (statKey team player.id s milestone)
  else none

/-- `maybeAutoPlayerHighlight` restructured into an option: the five stat
blocks in source order, first fresh payload wins. -/
def autoPlayerHighlightResult (payload : PersistedPayload) (team : Team)
    (playerId : String) : Option PersistedPayload :=
  match findById playerId (getPlayers payload team) with
  | none => none
  | some player =>
    (tryPlayerMilestone payload team playerId player .pts).orElse fun _ =>
    (tryPlayerMilestone payload team playerId player .reb).orElse fun _ =>
    (tryPlayerMilestone payload team playerId player .stl).orElse fun _ =>
    (tryPlayerMilestone payload team playerId player .blk).orElse fun _ =>
    tryPlayerMilestone payload team playerId player .tpm

/-- The original `maybeAutoPlayerHighlight`. -/
def maybeAutoPlayerHighlight (payload : PersistedPayload) (team : Team)
    (playerId : String) : PersistedPayload :=
  (autoPlayerHighlightResult payload team playerId).getD payload

/-- `setPossession`. -/
def setPossession (payload : PersistedPayload) (team : Team) : PersistedPayload :=
  let shouldRunShot := payload.state.gameClockRunning && !payload.state.shotViolation
  { payload with
    state := { payload.state with
      possession := team
      shotClockSeconds := payload.state.shotClockDefault
      shotViolation := false
      shotClockRunning := shouldRunShot } }

/-- `resetQuarter` (the helper; the quarter counter itself is left alone). -/
def resetQuarter (payload : PersistedPayload) : PersistedPayload :=
  { payload with
    state := { payload.state with
      gameClockSeconds := payload.state.quarterLengthMinutes * 60
      shotClockSeconds := payload.state.shotClockDefault
      gameClockRunning := false
      shotClockRunning := false
      shotViolation := false
      gameFinal := false
      overlayMode := none
      overlayLabel := ""
      overlayRemainingSeconds := 0
      overlayResumeGame := false
      tvAutoCooldownSeconds := 0
      tvStarPlayer := none
      tvTeamComparison := none } }

/-- `beginOverlay`: stop both clocks, record whether the game clock was
running, and open the overlay. -/
def beginOverlay (payload : PersistedPayload) (mode : OverlayMode) (label : String)
    (seconds : Int) : PersistedPayload :=
  { payload with
    state := { payload.state with
      gameClockRunning := false
      shotClockRunning := false
      overlayMode := some mode
      overlayLabel := label.toUpper
      overlayRemainingSeconds := max 0 seconds
      overlayResumeGame := payload.state.gameClockRunning } }

/-- `endOverlay`. -/
def endOverlay (payload : PersistedPayload) : PersistedPayload :=
  match payload.state.overlayMode with
  | none => payload
  | some mode =>
    let nextPayload : PersistedPayload :=
      { payload with
        state := { payload.state with
          overlayMode := none
          overlayLabel := ""
          overlayRemainingSeconds := 0
          overlayResumeGame := false } }
    match mode with
    | .halftime =>
      let withQuarter :=
        if nextPayload.state.quarter = 2 ∧ nextPayload.state.totalQuarters ≥ 3 then
          { nextPayload with
            state := { nextPayload.state with
              quarter := 3
              gameClockSeconds := nextPayload.state.quarterLengthMinutes * 60
              shotClockSeconds := nextPayload.state.shotClockDefault
              possession := Team.A
              shotViolation := false } }
        else nextPayload
      withActionLog withQuarter "Halftime ended."
    | .timeout =>
      let resume := payload.state.overlayResumeGame
      withActionLog
        { nextPayload with
          state := { nextPayload.state with
            gameClockRunning := resume
            shotClockRunning := resume } }
        "Timeout ended."

/-- JS truthiness of the optional `playerId` string (`undefined` and the
empty string are falsy). -/
def isTruthyId : Option String → Bool
  | none => false
  | some s => !s.isEmpty

/-- Default team display name used when an empty name is submitted. -/
def defaultTeamName : Team → String
  | .A => "Home"
  | .B => "Away"

/-- Score clamp and player attribution of `ADD_POINTS` (the `nextScore`
update and the `action.playerId` map of the source). -/
def addPointsPlayersPart (payload : PersistedPayload) (team : Team) (points : Int)
    (playerId : Option String) : PersistedPayload :=
  let nextScore := max 0 ((teamRec payload.state team).score + points)
  let p1 : PersistedPayload :=
    { payload with
      state := setTeamRec payload.state team
        { teamRec payload.state team with score := nextScore } }
  if isTruthyId playerId then
    let pid := playerId.getD ""
    setPlayersList p1 team ((getPlayers p1 team).map (fun p =>
      if p.id = pid then
        { p with pts := p.pts + points, tpm := p.tpm + (if points = 3 then 1 else 0) }
      else p))
  else p1

/-- The `if (action.points > 0)` block of `ADD_POINTS`: log line, possession
flip with shot-clock reset, and the NBA-mode clock stop. -/
def addPointsEffectsPart (p2 : PersistedPayload) (team : Team) (points : Int)
    (playerId : Option String) : PersistedPayload :=
  if points > 0 then
    let teamName := (teamRec p2.state team).name
    let player : Option PlayerState :=
      if isTruthyId playerId then findById (playerId.getD "") (getPlayers p2 team) else none
    let logged :=
      match player with
      | some pl =>
        withActionLog p2 (pl.name ++ " #" ++ toString pl.number ++ " hits " ++
          toString points ++ " for " ++ teamName ++ " (" ++ toString pl.pts ++ " pts)")
      | none =>
        withActionLog p2 (teamName ++ " scores " ++ toString points ++ " point" ++
          (if points = 1 then "" else "s") ++ ".")
    let flipped := setPossession logged (otherTeam team)
    if flipped.state.timingMode = TimingMode.NBA ∧ flipped.state.gameClockRunning then
      { flipped with
        state := { flipped.state with gameClockRunning := false, shotClockRunning := false } }
    else flipped
  else p2

/-- The `ADD_POINTS` branch of the reducer. -/
def applyAddPoints (payload : PersistedPayload) (team : Team) (points : Int)
    (playerId : Option String) : PersistedPayload :=
  if payload.state.gameFinal then payload
  else if points = 0 then payload
  else
    let p2 := addPointsPlayersPart payload team points playerId
    let p3 := addPointsEffectsPart p2 team points playerId
    let p4 := if isTruthyId playerId then maybeAutoPlayerHighlight p3 team (playerId.getD "") else p3
    maybeAutoTeamComparison p4

/-- The `ADD_FAST_BREAK_POINTS` branch. -/
def applyAddFastBreakPoints (payload : PersistedPayload) (team : Team) (points : Int) :
    PersistedPayload :=
  if payload.state.gameFinal then payload
  else if points = 0 then payload
  else
    let teamName := (teamRec payload.state team).name
    let p1 : PersistedPayload :=
      { payload with
        state := setTeamRec payload.state team
          { teamRec payload.state team with
            score := (teamRec payload.state team).score + points
            fastBreakPoints := (teamRec payload.state team).fastBreakPoints + points } }
    let p2 := withActionLog p1 (teamName ++ " fast break +" ++ toString points)
    let p3 := setPossession p2 (otherTeam team)
    maybeAutoTeamComparison p3

/-- One roster slot as initialised by `buildLivePlayers`. -/
def buildLivePlayer (team : Team) (now : Int) (idx : Nat) (p : RosterEntry) : PlayerState :=
  { id := teamLetter team ++ "-" ++ toString now ++ "-" ++ toString idx
    number := p.number
    name := p.name
    imageUrl := p.imageUrl.getD ""
    pts := 0, reb := 0, ast := 0, stl := 0, blk := 0, tpm := 0, fls := 0
    secondsPlayed := 0
    onCourt := decide (idx < 5)
    fouledOut := false }

def buildLivePlayersAux (team : Team) (now : Int) : Nat → List RosterEntry → List PlayerState
  | _, [] => []
  | idx, p :: rest => buildLivePlayer team now idx p :: buildLivePlayersAux team now (idx + 1) rest

/-- Placeholder roster used by `buildLivePlayers` when the input is empty. -/
def placeholderRoster (team : Team) : List RosterEntry :=
  [ { name := "Player " ++ teamLetter team ++ "1", number := 1, imageUrl := none },
    { name := "Player " ++ teamLetter team ++ "2", number := 2, imageUrl := none },
    { name := "Player " ++ teamLetter team ++ "3", number := 3, imageUrl := none },
    { name := "Player " ++ teamLetter team ++ "4", number := 4, imageUrl := none },
    { name := "Player " ++ teamLetter team ++ "5", number := 5, imageUrl := none } ]

/-- `buildLivePlayers`: first five slots start on court. -/
def buildLivePlayers (team : Team) (players : List RosterEntry) (now : Int) : List PlayerState :=
  let safe := if players.isEmpty then placeholderRoster team else players
  buildLivePlayersAux team now 0 safe

/-- The `LOAD_GAME` branch. -/
def applyLoadGame (payload : PersistedPayload) (home away : LoadGameTeamInput)
    (rules : Option LoadGameRulesInput) (now : Int) : PersistedPayload :=
  let nextQuarterLength :=
    (rules.bind (fun r => r.quarterLengthMinutes)).getD payload.state.quarterLengthMinutes
  let nextTotalQuarters :=
    (rules.bind (fun r => r.totalQuarters)).getD payload.state.totalQuarters
  let nextShotClockDefault :=
    (rules.bind (fun r => r.shotClockDefault)).getD payload.state.shotClockDefault
  let nextFoulLimit := (rules.bind (fun r => r.foulLimit)).getD payload.state.foulLimit
  let nextTimingMode := (rules.bind (fun r => r.timingMode)).getD payload.state.timingMode
  let quarterSeconds := nextQuarterLength * 60
  { payload with
    state := { payload.state with
      teamA := { payload.state.teamA with
        name := home.name, score := 0, fouls := 0, timeouts := 3, fastBreakPoints := 0
        color := home.color.getD payload.state.teamA.color
        logoUrl := home.logoUrl.getD "" }
      teamB := { payload.state.teamB with
        name := away.name, score := 0, fouls := 0, timeouts := 3, fastBreakPoints := 0
        color := away.color.getD payload.state.teamB.color
        logoUrl := away.logoUrl.getD "" }
      possession := Team.A
      quarter := 1
      totalQuarters := nextTotalQuarters
      quarterLengthMinutes := nextQuarterLength
      foulLimit := nextFoulLimit
      shotClockDefault := nextShotClockDefault
      gameClockSeconds := quarterSeconds
      shotClockSeconds := nextShotClockDefault
      gameClockRunning := false
      shotClockRunning := false
      timingMode := nextTimingMode
      shotViolation := false
      gameFinal := false
      overlayMode := none
      overlayLabel := ""
      overlayRemainingSeconds := 0
      overlayResumeGame := false
      tvAutoCooldownSeconds := 0
      tvAutoSeen := []
      tvStarPlayer := none
      tvTeamComparison := none }
    players := { A := buildLivePlayers Team.A home.players now
                 B := buildLivePlayers Team.B away.players now }
    actionLog := ["[Q1 - " ++ formatClock quarterSeconds ++ "] New game loaded: " ++
      home.name ++ " vs " ++ away.name] }

/-- The `OPEN_TIMEOUT` branch (also used by `USE_TIMEOUT` with 60 seconds). -/
def applyOpenTimeout (payload : PersistedPayload) (team : Team) (seconds : Int) :
    PersistedPayload :=
  let teamName := (teamRec payload.state team).name
  let label := teamName ++ " Timeout"
  let p1 := beginOverlay payload OverlayMode.timeout label seconds
  let p2 : PersistedPayload :=
    { p1 with
      state := setTeamRec p1.state team
        { teamRec p1.state team with timeouts := max 0 ((teamRec p1.state team).timeouts - 1) } }
  withActionLog p2 (teamName ++ " takes a " ++
    (if seconds = 30 then "30-second" else "full") ++ " timeout")

def statIncLabel : IncStat → String
  | .reb => "REB"
  | .ast => "AST"
  | .stl => "STL"
  | .blk => "BLK"
  | .fls => "FLS"

def getIncStat (p : PlayerState) : IncStat → Int
  | .reb => p.reb
  | .ast => p.ast
  | .stl => p.stl
  | .blk => p.blk
  | .fls => p.fls

def setIncStat (p : PlayerState) : IncStat → Int → PlayerState
  | .reb, v => { p with reb := v }
  | .ast, v => { p with ast := v }
  | .stl, v => { p with stl := v }
  | .blk, v => { p with blk := v }
  | .fls, v => { p with fls := v }

/-- The per-player map body of `INC_PLAYER_STAT`; the second component is the
name assigned to the enclosing `fouledOutPlayerName` variable (empty when the
branch did not run). -/
def incStatPlayer (foulLimit amount : Int) (stat : IncStat) (playerId : String)
    (p : PlayerState) : PlayerState × String :=
  if p.id ≠ playerId ∨ p.fouledOut then (p, "")
  else
    let next := setIncStat p stat (max 0 (getIncStat p stat + amount))
    if stat = IncStat.fls ∧ next.fls ≥ foulLimit then
      ({ next with fouledOut := true, onCourt := false }, next.name ++ " #" ++ toString next.number)
    else (next, "")

/-- The `INC_PLAYER_STAT` branch. -/
def applyIncPlayerStat (payload : PersistedPayload) (team : Team) (playerId : String)
    (stat : IncStat) (amountOpt : Option Int) : PersistedPayload :=
  let amount := amountOpt.getD 1
  let results := (getPlayers payload team).map
    (incStatPlayer payload.state.foulLimit amount stat playerId)
  let fouledOutPlayerName := results.foldl (fun acc r => if r.2 = "" then acc else r.2) ""
  let p1 := setPlayersList payload team (results.map Prod.fst)
  let p2 := if stat = IncStat.fls then recalcTeamFouls p1 team else p1
  let p3 :=
    match findById playerId (getPlayers p2 team) with
    | some player =>
      if stat ≠ IncStat.fls then
        withActionLog p2 (player.name ++ " #" ++ toString player.number ++ " +" ++ statIncLabel stat)
      else p2
    | none => p2
  let p4 := if fouledOutPlayerName ≠ "" then withActionLog p3 (fouledOutPlayerName ++ " fouled out.") else p3
  let p5 := maybeAutoPlayerHighlight p4 team playerId
  maybeAutoTeamComparison p5

/-- The `SET_PLAYER_ON_COURT` branch. -/
def applySetPlayerOnCourt (payload : PersistedPayload) (team : Team) (playerId : String)
    (onCourt : Bool) : PersistedPayload :=
  let list := getPlayers payload team
  let onCourtCount := countOnCourt list
  match findById playerId list with
  | none => payload
  | some target =>
    if target.fouledOut then payload
    else if onCourt && !target.onCourt && decide (onCourtCount ≥ 5) then payload
    else
      setPlayersList payload team
        (list.map (fun p => if p.id = playerId then { p with onCourt := onCourt } else p))

/-- The `SUBSTITUTE_PLAYER` branch. -/
def applySubstitutePlayer (payload : PersistedPayload) (team : Team)
    (playerOutId playerInId : String) : PersistedPayload :=
  let list := getPlayers payload team
  match findById playerOutId list, findById playerInId list with
  | some playerOut, some playerIn =>
    if !playerOut.onCourt || playerIn.onCourt || playerIn.fouledOut then payload
    else
      let swapped := list.map (fun p =>
        if p.id = playerOutId then { p with onCourt := false }
        else if p.id = playerInId then { p with onCourt := true }
        else p)
      withActionLog (setPlayersList payload team swapped)
        (playerOut.name ++ " #" ++ toString playerOut.number ++ " subbed out for " ++
          playerIn.name ++ " #" ++ toString playerIn.number ++ ".")
  | _, _ => payload

/-- The `ADD_PLAYER` branch. `Number.isFinite` always holds for the `Int`
model of the number field; the source object carries no `imageUrl`, modelled
as the empty string. -/
def applyAddPlayer (payload : PersistedPayload) (team : Team) (name : String) (number : Int)
    (onCourt : Bool) (now : Int) : PersistedPayload :=
  let addOnCourt := onCourt && decide (countOnCourt (getPlayers payload team) < 5)
  setPlayersList payload team (getPlayers payload team ++
    [ { id := teamLetter team ++ "-" ++ toString now
        number := number
        name := name
        imageUrl := ""
        pts := 0, reb := 0, ast := 0, stl := 0, blk := 0, tpm := 0, fls := 0
        secondsPlayed := 0
        onCourt := addOnCourt
        fouledOut := false } ])

/-- The `UPDATE_PLAYER` branch. -/
def applyUpdatePlayer (payload : PersistedPayload) (team : Team) (playerId : String)
    (updates : PlayerUpdates) : PersistedPayload :=
  let list := getPlayers payload team
  match findById playerId list with
  | none => payload
  | some target =>
    let wantsOnCourt := updates.onCourt = some true ∧ target.onCourt = false
    let onCourtCount := countOnCourt list
    if wantsOnCourt ∧ onCourtCount ≥ 5 then payload
    else
      recalcTeamFouls
        (setPlayersList payload team (list.map (fun p =>
          if p.id = playerId then
            { p with
              name := updates.name.getD p.name
              number := updates.number.getD p.number
              onCourt := updates.onCourt.getD p.onCourt }
          else p)))
        team

/-- The `DELETE_PLAYER` branch. -/
def applyDeletePlayer (payload : PersistedPayload) (team : Team) (playerId : String) :
    PersistedPayload :=
  recalcTeamFouls
    (setPlayersList payload team ((getPlayers payload team).filter (fun p => p.id != playerId)))
    team

/-- The `SHOW_TV_STAR_PLAYER` branch. -/
def applyShowTvStarPlayer (payload : PersistedPayload) (team : Team) (playerId : String) :
    PersistedPayload :=
  match findById playerId (getPlayers payload team) with
  | none => payload
  | some player =>
    let teamName := (teamRec payload.state team).name
    withActionLog
      { payload with
        state := { payload.state with
          tvStarPlayer := some
            { team := team, playerId := playerId, remainingSeconds := 10,
              reason := "Star Player", auto := false }
          tvTeamComparison := none } }
      ("TV Star Player: " ++ player.name ++ " #" ++ toString player.number ++
        " (" ++ teamName ++ ")")

/-- The `TICK` branch. -/
def applyTick (payload : PersistedPayload) : PersistedPayload :=
  let state := payload.state
  let nextAutoCooldownSeconds := max 0 (state.tvAutoCooldownSeconds - 1)
  let nextTvStarPlayer : Option TvStarPlayer :=
    match state.tvStarPlayer with
    | none => none
    | some sp =>
      if sp.remainingSeconds ≤ 1 then none
      else some { sp with remainingSeconds := sp.remainingSeconds - 1 }
  let nextTvTeamComparison : Option TvTeamComparison :=
    match state.tvTeamComparison with
    | none => none
    | some tc =>
      if tc.remainingSeconds ≤ 1 then none
      else some { tc with remainingSeconds := tc.remainingSeconds - 1 }
  if state.overlayMode.isSome then
    let nextRemaining := max 0 (state.overlayRemainingSeconds - 1)
    let nextPayload : PersistedPayload :=
      { payload with
        state := { state with
          overlayRemainingSeconds := nextRemaining
          tvAutoCooldownSeconds := nextAutoCooldownSeconds
          tvStarPlayer := nextTvStarPlayer
          tvTeamComparison := nextTvTeamComparison } }
    if nextRemaining ≤ 0 then endOverlay nextPayload else nextPayload
  else
    let gameNext := if state.gameClockRunning then max 0 (state.gameClockSeconds - 1)
      else state.gameClockSeconds
    let shotNext := if state.shotClockRunning then max 0 (state.shotClockSeconds - 1)
      else state.shotClockSeconds
    let reachedQuarterEnd := state.gameClockRunning && decide (gameNext = 0)
    let nextState : ScoreboardState :=
      { state with
        gameClockSeconds := gameNext
        shotClockSeconds := shotNext
        gameClockRunning := if gameNext > 0 then state.gameClockRunning else false
        shotClockRunning := if gameNext > 0 ∧ shotNext > 0 then state.shotClockRunning else false
        shotViolation := if shotNext = 0 then true else state.shotViolation
        tvAutoCooldownSeconds := nextAutoCooldownSeconds
        tvStarPlayer := nextTvStarPlayer
        tvTeamComparison := nextTvTeamComparison }
    let stateAndLog : ScoreboardState × List String :=
      if reachedQuarterEnd && decide (state.quarter < state.totalQuarters) then
        let advancedQuarter := state.quarter + 1
        let ns : ScoreboardState :=
          { nextState with
            quarter := advancedQuarter
            gameClockSeconds := state.quarterLengthMinutes * 60
            shotClockSeconds := state.shotClockDefault
            gameClockRunning := false
            shotClockRunning := false
            shotViolation := false }
        (ns, (withActionLog { payload with state := ns }
          ("Quarter ended. Advanced to Q" ++ toString advancedQuarter ++ ".")).actionLog)
      else if reachedQuarterEnd && decide (state.quarter ≥ state.totalQuarters) then
        let ns : ScoreboardState := { nextState with gameFinal := true }
        (ns, (withActionLog { payload with state := ns } "Final buzzer.").actionLog)
      else (nextState, payload.actionLog)
    let nextPlayers : TeamPlayers :=
      if state.gameClockRunning then
        { A := payload.players.A.map (fun p =>
            if p.onCourt then { p with secondsPlayed := p.secondsPlayed + 1 } else p)
          B := payload.players.B.map (fun p =>
            if p.onCourt then { p with secondsPlayed := p.secondsPlayed + 1 } else p) }
      else payload.players
    { payload with state := stateAndLog.1, players := nextPlayers, actionLog := stateAndLog.2 }

/-- The reducer: one case per `ScoreboardAction` constructor, each mirroring
the corresponding `switch` case of the source. -/
def reducer (payload : PersistedPayload) (action : ScoreboardAction) (now : Int) :
    PersistedPayload :=
  match action with
  | .ADD_POINTS team points playerId => applyAddPoints payload team points playerId
  | .ADD_FAST_BREAK_POINTS team points => applyAddFastBreakPoints payload team points
  | .SET_TEAM_NAME team name =>
    { payload with
      state := setTeamRec payload.state team
        { teamRec payload.state team with
          name := if name.isEmpty then defaultTeamName team else name } }
  | .SET_TEAM_COLOR team color =>
    { payload with
      state := setTeamRec payload.state team { teamRec payload.state team with color := color } }
  | .SET_TEAM_LOGO team logoUrl =>
    { payload with
      state := setTeamRec payload.state team { teamRec payload.state team with logoUrl := logoUrl } }
  | .LOAD_GAME home away rules => applyLoadGame payload home away rules now
  | .SET_POSSESSION team => setPossession payload team
  | .START_GAME =>
    if payload.state.overlayMode.isSome then payload
    else
      { payload with
        state := { payload.state with
          gameClockRunning := true, shotClockRunning := true, gameFinal := false } }
  | .STOP_GAME =>
    { payload with
      state := { payload.state with gameClockRunning := false, shotClockRunning := false } }
  | .FINISH_GAME =>
    { payload with
      state := { payload.state with
        gameClockRunning := false
        shotClockRunning := false
        gameFinal := true
        overlayMode := none
        overlayLabel := ""
        overlayRemainingSeconds := 0
        overlayResumeGame := false
        tvStarPlayer := none
        tvTeamComparison := none } }
  | .START_SHOT =>
    if payload.state.overlayMode.isSome then payload
    else { payload with state := { payload.state with shotClockRunning := true } }
  | .STOP_SHOT => { payload with state := { payload.state with shotClockRunning := false } }
  | .RESET_QUARTER => resetQuarter payload
  | .PREV_QUARTER =>
    let prevQuarter := max 1 (payload.state.quarter - 1)
    resetQuarter { payload with state := { payload.state with quarter := prevQuarter } }
  | .NEXT_QUARTER =>
    let nextQuarter := min payload.state.totalQuarters (payload.state.quarter + 1)
    resetQuarter { payload with state := { payload.state with quarter := nextQuarter } }
  | .RESET_SHOT seconds =>
    { payload with
      state := { payload.state with
        shotClockSeconds := seconds, shotClockRunning := false, shotViolation := false } }
  | .INC_FOUL team =>
    { payload with
      state := setTeamRec payload.state team
        { teamRec payload.state team with fouls := (teamRec payload.state team).fouls + 1 } }
  | .USE_TIMEOUT team => applyOpenTimeout payload team 60
  | .OPEN_TIMEOUT team seconds => applyOpenTimeout payload team seconds
  | .START_HALFTIME minutes =>
    let m := max 1 minutes
    beginOverlay (withActionLog payload ("Halftime begins (" ++ toString m ++ " minutes)"))
      OverlayMode.halftime "Halftime" (m * 60)
  | .END_OVERLAY _ => endOverlay payload
  | .SHOW_TV_STAR_PLAYER team playerId => applyShowTvStarPlayer payload team playerId
  | .DISMISS_TV_STAR_PLAYER =>
    { payload with
      state := { payload.state with tvStarPlayer := none, tvTeamComparison := none } }
  | .INC_PLAYER_STAT team playerId stat amount =>
    applyIncPlayerStat payload team playerId stat amount
  | .SET_PLAYER_ON_COURT team playerId onCourt =>
    applySetPlayerOnCourt payload team playerId onCourt
  | .SUBSTITUTE_PLAYER team playerOutId playerInId =>
    applySubstitutePlayer payload team playerOutId playerInId
  | .ADD_PLAYER team name number onCourt => applyAddPlayer payload team name number onCourt now
  | .UPDATE_PLAYER team playerId updates => applyUpdatePlayer payload team playerId updates
  | .DELETE_PLAYER team playerId => applyDeletePlayer payload team playerId
  | .ADD_LOG text => withActionLog payload text
  | .TICK => applyTick payload
  | .HYDRATE hydrated => hydrated

/-- `DEFAULT_PLAYERS_A` of `constants.ts` (number, name pairs). -/
def DEFAULT_PLAYERS_A : List (Int × String) :=
  [(1, "Player A1"), (3, "Player A2"), (5, "Player A3"), (7, "Player A4"),
   (9, "Player A5"), (11, "Player A6"), (13, "Player A7")]

/-- `DEFAULT_PLAYERS_B` of `constants.ts`. -/
def DEFAULT_PLAYERS_B : List (Int × String) :=
  [(2, "Player B1"), (4, "Player B2"), (6, "Player B3"), (8, "Player B4"),
   (10, "Player B5"), (12, "Player B6"), (14, "Player B7")]

def createPlayerStateAux (teamKey : Team) (now : Int) : Nat → List (Int × String) →
    List PlayerState
  | _, [] => []
  | idx, p :: rest =>
    { id := teamLetter teamKey ++ "-" ++ toString idx ++ "-" ++ toString now
      number := p.1
      name := p.2
      imageUrl := ""
      pts := 0, reb := 0, ast := 0, stl := 0, blk := 0, tpm := 0, fls := 0
      secondsPlayed := 0
      onCourt := decide (idx < 5)
      fouledOut := false } :: createPlayerStateAux teamKey now (idx + 1) rest

/-- `createPlayerState` of `constants.ts`; the source object carries no
`imageUrl`, modelled as the empty string. -/
def createPlayerState (players : List (Int × String)) (teamKey : Team) (now : Int) :
    List PlayerState :=
  createPlayerStateAux teamKey now 0 players

/-- `defaultState` of `constants.ts`. -/
def defaultState : ScoreboardState :=
  { teamA := { name := "Home", score := 0, fouls := 0, timeouts := 3, fastBreakPoints := 0,
               color := "#FFB347", logoUrl := "" }
    teamB := { name := "Away", score := 0, fouls := 0, timeouts := 3, fastBreakPoints := 0,
               color := "#7EC4CF", logoUrl := "" }
    possession := Team.A
    quarter := 1
    totalQuarters := 4
    quarterLengthMinutes := 10
    foulLimit := 5
    gameClockSeconds := 10 * 60
    shotClockDefault := 24
    shotClockSeconds := 24
    gameClockRunning := false
    shotClockRunning := false
    timingMode := TimingMode.NBA
    shotViolation := false
    gameFinal := false
    overlayMode := none
    overlayLabel := ""
    overlayRemainingSeconds := 0
    overlayResumeGame := false
    tvAutoCooldownSeconds := 0
    tvAutoSeen := []
    tvStarPlayer := none
    tvTeamComparison := none }

/-- `defaultPayload` of `constants.ts`; `now` stands for its `Date.now()`. -/
def defaultPayload (now : Int) : PersistedPayload :=
  { state := defaultState
    players := { A := createPlayerState DEFAULT_PLAYERS_A Team.A now
                 B := createPlayerState DEFAULT_PLAYERS_B Team.B now }
    actionLog := []
    updatedAt := now }

/-- Parsed-JSON image of a team record: every field optional. -/
structure ParsedTeamRecord where
  name : Option String
  score : Option Int
  fouls : Option Int
  timeouts : Option Int
  fastBreakPoints : Option Int
  color : Option String
  logoUrl : Option String
  deriving DecidableEq

/-- Parsed-JSON image of a player record. -/
structure ParsedPlayerState where
  id : Option String
  number : Option Int
  name : Option String
  imageUrl : Option String
  pts : Option Int
  reb : Option Int
  ast : Option Int
  stl : Option Int
  blk : Option Int
  tpm : Option Int
  fls : Option Int
  secondsPlayed : Option Int
  onCourt : Option Bool
  fouledOut : Option Bool
  deriving DecidableEq

/-- Parsed-JSON image of the scoreboard state; the outer `Option` records
field presence, an inner `Option` is the nullable value itself. -/
structure ParsedScoreboardState where
  teamA : Option ParsedTeamRecord
  teamB : Option ParsedTeamRecord
  possession : Option Team
  quarter : Option Int
  totalQuarters : Option Int
  quarterLengthMinutes : Option Int
  foulLimit : Option Int
  gameClockSeconds : Option Int
  shotClockDefault : Option Int
  shotClockSeconds : Option Int
  gameClockRunning : Option Bool
  shotClockRunning : Option Bool
  timingMode : Option TimingMode
  shotViolation : Option Bool
  gameFinal : Option Bool
  overlayMode : Option (Option OverlayMode)
  overlayLabel : Option String
  overlayRemainingSeconds : Option Int
  overlayResumeGame : Option Bool
  tvAutoCooldownSeconds : Option Int
  tvAutoSeen : Option (List String)
  tvStarPlayer : Option (Option TvStarPlayer)
  tvTeamComparison : Option (Option TvTeamComparison)
  deriving DecidableEq

structure ParsedTeamPlayers where
  A : Option (List ParsedPlayerState)
  B : Option (List ParsedPlayerState)
  deriving DecidableEq

structure ParsedPayload where
  state : Option ParsedScoreboardState
  players : Option ParsedTeamPlayers
  actionLog : Option (List String)
  updatedAt : Option Int
  deriving DecidableEq

/-- Abstraction of the raw string handed to `parsePayload`: either something
`JSON.parse` rejects (including `null` input), or the parsed field tree. -/
inductive RawPayloadText where
  | malformed
  | parsed (value : ParsedPayload)
  deriving DecidableEq

/-- `isState` of `storage.ts`: `teamA`/`teamB` truthy and the two clock
fields numbers, i.e. present in the parsed tree. -/
def isState : Option ParsedScoreboardState → Bool
  | none => false
  | some s => s.teamA.isSome && s.teamB.isSome &&
      s.gameClockSeconds.isSome && s.shotClockSeconds.isSome

/-- `{...base.state.teamX, ...parsed.state.teamX}`. -/
def mergeTeam (base : TeamRecord) (p : ParsedTeamRecord) : TeamRecord :=
  { name := p.name.getD base.name
    score := p.score.getD base.score
    fouls := p.fouls.getD base.fouls
    timeouts := p.timeouts.getD base.timeouts
    fastBreakPoints := p.fastBreakPoints.getD base.fastBreakPoints
    color := p.color.getD base.color
    logoUrl := p.logoUrl.getD base.logoUrl }

/-- `{...base.state, ...parsed.state, teamA: ..., teamB: ...}`. -/
def mergeState (base : ScoreboardState) (p : ParsedScoreboardState) : ScoreboardState :=
  { teamA := match p.teamA with
      | none => base.teamA
      | some t => mergeTeam base.teamA t
    teamB := match p.teamB with
      | none => base.teamB
      | some t => mergeTeam base.teamB t
    possession := p.possession.getD base.possession
    quarter := p.quarter.getD base.quarter
    totalQuarters := p.totalQuarters.getD base.totalQuarters
    quarterLengthMinutes := p.quarterLengthMinutes.getD base.quarterLengthMinutes
    foulLimit := p.foulLimit.getD base.foulLimit
    gameClockSeconds := p.gameClockSeconds.getD base.gameClockSeconds
    shotClockDefault := p.shotClockDefault.getD base.shotClockDefault
    shotClockSeconds := p.shotClockSeconds.getD base.shotClockSeconds
    gameClockRunning := p.gameClockRunning.getD base.gameClockRunning
    shotClockRunning := p.shotClockRunning.getD base.shotClockRunning
    timingMode := p.timingMode.getD base.timingMode
    shotViolation := p.shotViolation.getD base.shotViolation
    gameFinal := p.gameFinal.getD base.gameFinal
    overlayMode := p.overlayMode.getD base.overlayMode
    overlayLabel := p.overlayLabel.getD base.overlayLabel
    overlayRemainingSeconds := p.overlayRemainingSeconds.getD base.overlayRemainingSeconds
    overlayResumeGame := p.overlayResumeGame.getD base.overlayResumeGame
    tvAutoCooldownSeconds := p.tvAutoCooldownSeconds.getD base.tvAutoCooldownSeconds
    tvAutoSeen := p.tvAutoSeen.getD base.tvAutoSeen
    tvStarPlayer := p.tvStarPlayer.getD base.tvStarPlayer
    tvTeamComparison := p.tvTeamComparison.getD base.tvTeamComparison }

/-- `{...base, ...p, tpm: Number.isFinite(p.tpm) ? p.tpm : 0}`: a present
`tpm` is always a finite number in the `Int` model, an absent one yields 0. -/
def mergePlayer (base : PlayerState) (p : ParsedPlayerState) : PlayerState :=
  { id := p.id.getD base.id
    number := p.number.getD base.number
    name := p.name.getD base.name
    imageUrl := p.imageUrl.getD base.imageUrl
    pts := p.pts.getD base.pts
    reb := p.reb.getD base.reb
    ast := p.ast.getD base.ast
    stl := p.stl.getD base.stl
    blk := p.blk.getD base.blk
    tpm := p.tpm.getD 0
    fls := p.fls.getD base.fls
    secondsPlayed := p.secondsPlayed.getD base.secondsPlayed
    onCourt := p.onCourt.getD base.onCourt
    fouledOut := p.fouledOut.getD base.fouledOut }

/-- Placeholder for `fallback[0]` on an empty fallback roster; unreachable in
the codec because the fallback is always the non-empty default roster. -/
def emptyFallbackPlayer : PlayerState :=
  { id := "", number := 0, name := "", imageUrl := "",
    pts := 0, reb := 0, ast := 0, stl := 0, blk := 0, tpm := 0, fls := 0,
    secondsPlayed := 0, onCourt := false, fouledOut := false }

/-- `fallback[idx] ?? fallback[0]`. -/
def fallbackAt (fallback : List PlayerState) (idx : Nat) : PlayerState :=
  (fallback.get? idx).getD (fallback.headD emptyFallbackPlayer)

def normalizePlayersAux (fallback : List PlayerState) : Nat → List ParsedPlayerState →
    List PlayerState
  | _, [] => []
  | idx, p :: rest =>
    mergePlayer (fallbackAt fallback idx) p :: normalizePlayersAux fallback (idx + 1) rest

/-- `normalizePlayers` of `storage.ts`: a missing list falls back wholesale,
otherwise each entry is merged with the default-roster slot of its index. -/
def normalizePlayers (list : Option (List ParsedPlayerState)) (fallback : List PlayerState) :
    List PlayerState :=
  match list with
  | none => fallback
  | some l => normalizePlayersAux fallback 0 l

/-- `parsePayload` of `storage.ts`; `now` stands for the `Date.now()` used
both inside `defaultPayload()` and as the `updatedAt` fallback. -/
def parsePayload (raw : RawPayloadText) (now : Int) : Option PersistedPayload :=
  match raw with
  | .malformed => none
  | .parsed parsed =>
    if !isState parsed.state then none
    else
      match parsed.state with
      | none => none
      | some pstate =>
        let base := defaultPayload now
        some
          { state := mergeState base.state pstate
            players := { A := normalizePlayers (parsed.players.bind (fun q => q.A)) base.players.A
                         B := normalizePlayers (parsed.players.bind (fun q => q.B)) base.players.B }
            actionLog := parsed.actionLog.getD []
            updatedAt := parsed.updatedAt.getD now }

def toParsedTeam (t : TeamRecord) : ParsedTeamRecord :=
  { name := some t.name, score := some t.score, fouls := some t.fouls,
    timeouts := some t.timeouts, fastBreakPoints := some t.fastBreakPoints,
    color := some t.color, logoUrl := some t.logoUrl }

def toParsedPlayer (p : PlayerState) : ParsedPlayerState :=
  { id := some p.id, number := some p.number, name := some p.name,
    imageUrl := some p.imageUrl, pts := some p.pts, reb := some p.reb,
    ast := some p.ast, stl := some p.stl, blk := some p.blk, tpm := some p.tpm,
    fls := some p.fls, secondsPlayed := some p.secondsPlayed,
    onCourt := some p.onCourt, fouledOut := some p.fouledOut }

def toParsedState (s : ScoreboardState) : ParsedScoreboardState :=
  { teamA := some (toParsedTeam s.teamA), teamB := some (toParsedTeam s.teamB),
    possession := some s.possession, quarter := some s.quarter,
    totalQuarters := some s.totalQuarters,
    quarterLengthMinutes := some s.quarterLengthMinutes, foulLimit := some s.foulLimit,
    gameClockSeconds := some s.gameClockSeconds, shotClockDefault := some s.shotClockDefault,
    shotClockSeconds := some s.shotClockSeconds, gameClockRunning := some s.gameClockRunning,
    shotClockRunning := some s.shotClockRunning, timingMode := some s.timingMode,
    shotViolation := some s.shotViolation, gameFinal := some s.gameFinal,
    overlayMode := some s.overlayMode, overlayLabel := some s.overlayLabel,
    overlayRemainingSeconds := some s.overlayRemainingSeconds,
    overlayResumeGame := some s.overlayResumeGame,
    tvAutoCooldownSeconds := some s.tvAutoCooldownSeconds,
    tvAutoSeen := some s.tvAutoSeen, tvStarPlayer := some s.tvStarPlayer,
    tvTeamComparison := some s.tvTeamComparison }

/-- `JSON.parse(JSON.stringify(payload))`: the full field tree. -/
def toParsedPayload (p : PersistedPayload) : ParsedPayload :=
  { state := some (toParsedState p.state)
    players := some { A := some (p.players.A.map toParsedPlayer)
                      B := some (p.players.B.map toParsedPlayer) }
    actionLog := some p.actionLog
    updatedAt := some p.updatedAt }

/-- `savePayload` of `storage.ts`: stamp `updatedAt := Date.now()`, then
serialize; the identical serialized text is written under both storage keys. -/
def savePayload (payload : PersistedPayload) (now : Int) : RawPayloadText :=
  RawPayloadText.parsed (toParsedPayload { payload with updatedAt := now })

def STORAGE_KEY_V5 : String := "basketball_scoreboard_state_v5b"

def STORAGE_KEY_V3 : String := "basketball_scoreboard_state_v3"

/-- The storage-event handler of `useScoreboardStore`: for a notification on
one of the two compatibility keys with a non-null new value, decode and
hydrate only a strictly fresher snapshot (dispatching `HYDRATE` through the
reducer replaces local state wholesale). -/
def handleStorageEvent (localPayload : PersistedPayload) (eventKey : String)
    (eventNewValue : Option RawPayloadText) (now : Int) : PersistedPayload :=
  match eventNewValue with
  | none => localPayload
  | some raw =>
    if eventKey ≠ STORAGE_KEY_V3 ∧ eventKey ≠ STORAGE_KEY_V5 then localPayload
    else
      match parsePayload raw now with
      | none => localPayload
      | some externalPayload =>
        if externalPayload.updatedAt ≤ localPayload.updatedAt then localPayload
        else reducer localPayload (ScoreboardAction.HYDRATE externalPayload) now

/-- The five-on-court bound of §3, for both teams of a snapshot. -/
def onCourtBound (payload : PersistedPayload) : Prop :=
  countOnCourt payload.players.A ≤ 5 ∧ countOnCourt payload.players.B ≤ 5

/-- Player ids are pairwise distinct within each team. -/
def idsNodup (payload : PersistedPayload) : Prop :=
  (payload.players.A.map (fun p => p.id)).Nodup ∧
    (payload.players.B.map (fun p => p.id)).Nodup

/-- `HYDRATE` installs its argument verbatim, so the bound survives it only
when the installed snapshot itself satisfies the bound; no other action
carries a snapshot. -/
def hydrateSafe : ScoreboardAction → Prop
  | .HYDRATE q => onCourtBound q
  | _ => True

/-- A team's derived foul counter agrees with its player records. -/
def foulsSynced (payload : PersistedPayload) (team : Team) : Prop :=
  (teamRec payload.state team).fouls = sumFls (getPlayers payload team)

/-- A fresh bench player used to build concrete snapshots. -/
def basePlayer (pid : String) (num : Int) (nm : String) (court : Bool) : PlayerState :=
  { id := pid, number := num, name := nm, imageUrl := "",
    pts := 0, reb := 0, ast := 0, stl := 0, blk := 0, tpm := 0, fls := 0,
    secondsPlayed := 0, onCourt := court, fouledOut := false }

/-- Snapshot with four players on court for team A and two bench players that
share the id `"dup"`. -/
def c1Payload : PersistedPayload :=
  { defaultPayload 0 with
    players :=
      { A := [basePlayer "a1" 1 "P1" true, basePlayer "a2" 2 "P2" true,
              basePlayer "a3" 3 "P3" true, basePlayer "a4" 4 "P4" true,
              basePlayer "dup" 6 "D1" false, basePlayer "dup" 7 "D2" false]
        B := (defaultPayload 0).players.B } }

/-- Snapshot whose team-A foul counter (1) disagrees with the player records
(all zero). -/
def c2Payload : PersistedPayload :=
  { defaultPayload 0 with
    state := { defaultState with teamA := { defaultState.teamA with fouls := 1 } } }

/-- Snapshot whose only team-A player has fouled out. -/
def c3Payload : PersistedPayload :=
  { defaultPayload 0 with
    players :=
      { A := [{ basePlayer "a1" 1 "P1" false with fls := 5, fouledOut := true }]
        B := (defaultPayload 0).players.B } }

/-- Snapshot with the game clock running and the shot clock stopped. -/
def c6Payload : PersistedPayload :=
  { defaultPayload 0 with
    state := { defaultState with gameClockRunning := true, shotClockRunning := false } }

/-- Snapshot with two team-A players tied at 10 points (both at the first
points milestone) and everything else idle. -/
def c7TiePayload : PersistedPayload :=
  { defaultPayload 0 with
    players :=
      { A := [{ basePlayer "a1" 1 "P1" true with pts := 10 },
              { basePlayer "a2" 2 "P2" true with pts := 10 }]
        B := [] } }

/-- Snapshot with a sole points leader, used to witness a legitimate firing. -/
def c7LeadPayload : PersistedPayload :=
  { defaultPayload 0 with
    players :=
      { A := [{ basePlayer "a1" 1 "P1" true with pts := 12 },
              { basePlayer "a2" 2 "P2" true with pts := 3 }]
        B := [] } }

/-- The payload produced by the legitimate firing of `c7LeadPayload`. -/
def c7LeadOut : PersistedPayload :=
  (autoPlayerHighlightResult c7LeadPayload Team.A "a1").getD c7LeadPayload

/-- Snapshot with a distinctive `updatedAt` for the round-trip counterexample. -/
def c8Payload : PersistedPayload :=
  { defaultPayload 0 with updatedAt := 5 }

/-- Scenario D observer state: locally held `updatedAt = 150`. -/
def c9Local : PersistedPayload :=
  { defaultPayload 0 with updatedAt := 150 }

/-- Scenario D stale write: serialized snapshot stamped `updatedAt = 120`. -/
def c9Raw : RawPayloadText :=
  savePayload (defaultPayload 0) 120

/-- The decoding of `c9Raw`. -/
def c9Ext : PersistedPayload :=
  { defaultPayload 0 with updatedAt := 120 }

/-- The player record after `ADD_POINTS` attribution: points added, and the
three-point counter bumped exactly for a three-point make. -/
def addPointsTo (pl : PlayerState) (points : Int) : PlayerState :=
  { pl with pts := pl.pts + points, tpm := pl.tpm + (if points = 3 then 1 else 0) }

/-! ### List-level helper lemmas -/

theorem countOnCourt_map_eq (f : PlayerState → PlayerState)
    (h : ∀ p, (f p).onCourt = p.onCourt) :
    ∀ l : List PlayerState, countOnCourt (l.map f) = countOnCourt l := by
  intro l
  induction l with
  | nil => rfl
  | cons p rest ih =>
    simp only [List.map_cons, countOnCourt, h p, ih]

theorem countOnCourt_map_le (f : PlayerState → PlayerState)
    (h : ∀ p, (f p).onCourt = true → p.onCourt = true) :
    ∀ l : List PlayerState, countOnCourt (l.map f) ≤ countOnCourt l := by
  intro l
  induction l with
  | nil => exact Nat.le_refl 0
  | cons p rest ih =>
    simp only [List.map_cons, countOnCourt]
    have hhead : (if (f p).onCourt then 1 else 0) ≤ (if p.onCourt then 1 else 0) := by
      by_cases hf : (f p).onCourt = true
      · simp [hf, h p hf]
      · simp [hf]
    omega

theorem countOnCourt_append (l1 l2 : List PlayerState) :
    countOnCourt (l1 ++ l2) = countOnCourt l1 + countOnCourt l2 := by
  induction l1 with
  | nil => simp [countOnCourt]
  | cons p rest ih =>
    show (if p.onCourt then 1 else 0) + countOnCourt (rest ++ l2)
      = ((if p.onCourt then 1 else 0) + countOnCourt rest) + countOnCourt l2
    rw [ih]
    omega

theorem countOnCourt_filter_le (q : PlayerState → Bool) :
    ∀ l : List PlayerState, countOnCourt (l.filter q) ≤ countOnCourt l := by
  intro l
  induction l with
  | nil => exact Nat.le_refl 0
  | cons p rest ih =>
    by_cases hq : q p = true
    · have hstep : List.filter q (p :: rest) = p :: List.filter q rest := by
        rw [List.filter_cons, if_pos hq]
      rw [hstep]
      show (if p.onCourt then 1 else 0) + countOnCourt (List.filter q rest)
        ≤ (if p.onCourt then 1 else 0) + countOnCourt rest
      exact Nat.add_le_add_left ih _
    · have hstep : List.filter q (p :: rest) = List.filter q rest := by
        rw [List.filter_cons, if_neg hq]
      rw [hstep]
      show countOnCourt (List.filter q rest) ≤ (if p.onCourt then 1 else 0) + countOnCourt rest
      exact le_trans ih (Nat.le_add_left _ _)

theorem findById_id (i : String) :
    ∀ (l : List PlayerState) (t : PlayerState), findById i l = some t → t.id = i := by
  intro l
  induction l with
  | nil => intro t h; simp [findById] at h
  | cons p rest ih =>
    intro t h
    by_cases hp : p.id = i
    · simp only [findById, hp, if_true] at h
      cases h
      exact hp
    · simp only [findById, hp, if_false] at h
      exact ih t h

theorem findById_eq_none_of_not_mem (i : String) :
    ∀ l : List PlayerState, i ∉ l.map (fun p => p.id) → findById i l = none := by
  intro l
  induction l with
  | nil => intro _; rfl
  | cons p rest ih =>
    intro h
    simp only [List.map_cons, List.mem_cons, not_or] at h
    obtain ⟨h1, h2⟩ := h
    have hne : ¬p.id = i := fun hp => h1 hp.symm
    simp only [findById, if_neg hne]
    exact ih h2

theorem map_update_of_findById_none (i : String) (g : PlayerState → PlayerState) :
    ∀ l : List PlayerState, findById i l = none →
      l.map (fun p => if p.id = i then g p else p) = l := by
  intro l
  induction l with
  | nil => intro _; rfl
  | cons p rest ih =>
    intro h
    by_cases hp : p.id = i
    · simp [findById, hp] at h
    · simp only [findById, if_neg hp] at h
      simp only [List.map_cons, if_neg hp, ih h]

theorem findById_map (i : String) (f : PlayerState → PlayerState)
    (hid : ∀ p, (f p).id = p.id) :
    ∀ l : List PlayerState, findById i (l.map f) = (findById i l).map f := by
  intro l
  induction l with
  | nil => rfl
  | cons p rest ih =>
    by_cases hp : p.id = i
    · simp only [List.map_cons, findById, hid p, if_pos hp]
      rfl
    · simp only [List.map_cons, findById, hid p, if_neg hp, ih]

theorem ids_map_eq (f : PlayerState → PlayerState) (hid : ∀ p, (f p).id = p.id)
    (l : List PlayerState) :
    (l.map f).map (fun p => p.id) = l.map (fun p => p.id) := by
  rw [List.map_map]
  exact List.map_congr_left (fun p _ => hid p)

/-- Counting after updating the players that carry a given id: with pairwise
distinct ids, exactly the found player's on-court flag is replaced by `b`. -/
theorem countOnCourt_map_update (i : String) (b : Bool) (g : PlayerState → PlayerState)
    (hg : ∀ p, (g p).onCourt = b) :
    ∀ (l : List PlayerState) (t : PlayerState),
      (l.map (fun p => p.id)).Nodup → findById i l = some t →
      countOnCourt (l.map (fun p => if p.id = i then g p else p)) +
          (if t.onCourt then 1 else 0)
        = countOnCourt l + (if b then 1 else 0) := by
  intro l
  induction l with
  | nil => intro t _ h; simp [findById] at h
  | cons p rest ih =>
    intro t hnd hf
    simp only [List.map_cons, List.nodup_cons] at hnd
    obtain ⟨hpni, hndr⟩ := hnd
    by_cases hpi : p.id = i
    · have ht : p = t := by
        simp only [findById, if_pos hpi] at hf
        exact Option.some.inj hf
      have hrest : findById i rest = none := by
        apply findById_eq_none_of_not_mem
        intro hmem
        exact hpni (hpi ▸ hmem)
      have hmap : rest.map (fun q => if q.id = i then g q else q) = rest :=
        map_update_of_findById_none i g rest hrest
      rw [← ht]
      simp only [List.map_cons, if_pos hpi, countOnCourt, hmap, hg p]
      omega
    · have hf2 : findById i rest = some t := by
        simpa only [findById, if_neg hpi] using hf
      have hrec := ih t hndr hf2
      simp only [List.map_cons, if_neg hpi, countOnCourt]
      omega

/-! ### Preservation lemmas: logging and the auto-highlight detector leave
the rosters, the team records, possession and the clock fields alone. -/

theorem withActionLog_players (p : PersistedPayload) (t : String) :
    (withActionLog p t).players = p.players := rfl

theorem withActionLog_state (p : PersistedPayload) (t : String) :
    (withActionLog p t).state = p.state := rfl

theorem logLen_withActionLog (p : PersistedPayload) (t : String) :
    (withActionLog p t).actionLog.length = min 250 (p.actionLog.length + 1) := by
  simp [withActionLog]
  omega

theorem showOpt_pres (p : PersistedPayload) (tm : Team) (pid r k : String)
    (q : PersistedPayload) (h : showAutoPlayerHighlightOpt p tm pid r k = some q) :
    q.players = p.players ∧ q.state.teamA = p.state.teamA ∧
    q.state.teamB = p.state.teamB ∧ q.state.possession = p.state.possession ∧
    q.state.shotClockSeconds = p.state.shotClockSeconds ∧
    q.state.shotClockRunning = p.state.shotClockRunning ∧
    q.state.gameClockRunning = p.state.gameClockRunning ∧
    q.state.gameClockSeconds = p.state.gameClockSeconds ∧
    q.state.gameFinal = p.state.gameFinal ∧
    q.actionLog.length = min 250 (p.actionLog.length + 1) := by
  unfold showAutoPlayerHighlightOpt at h
  by_cases h1 : (!canAutoHighlight p) = true
  · rw [if_pos h1] at h; exact absurd h (by simp)
  · rw [if_neg h1] at h
    by_cases h2 : p.state.tvAutoSeen.contains k = true
    · rw [if_pos h2] at h; exact absurd h (by simp)
    · rw [if_neg h2] at h
      cases hfind : findById pid (getPlayers p tm) with
      | none => rw [hfind] at h; exact absurd h (by simp)
      | some player =>
        rw [hfind] at h
        have hq := Option.some.inj h
        rw [← hq]
        refine ⟨rfl, rfl, rfl, rfl, rfl, rfl, rfl, rfl, rfl, ?_⟩
        exact logLen_withActionLog _ _

theorem tryPlayerMilestone_pres (p : PersistedPayload) (tm : Team) (pid : String)
    (player : PlayerState) (s : TrackedStat) (q : PersistedPayload)
    (h : tryPlayerMilestone p tm pid player s = some q) :
    q.players = p.players ∧ q.state.teamA = p.state.teamA ∧
    q.state.teamB = p.state.teamB ∧ q.state.possession = p.state.possession ∧
    q.state.shotClockSeconds = p.state.shotClockSeconds ∧
    q.state.shotClockRunning = p.state.shotClockRunning ∧
    q.state.gameClockRunning = p.state.gameClockRunning ∧
    q.state.gameClockSeconds = p.state.gameClockSeconds ∧
    q.state.gameFinal = p.state.gameFinal ∧
    q.actionLog.length = min 250 (p.actionLog.length + 1) := by
  simp only [tryPlayerMilestone] at h
  split at h
  · exact showOpt_pres p tm pid _ _ q h
  · exact absurd h (by simp)

theorem autoPlayerHighlightResult_pres (p : PersistedPayload) (tm : Team) (pid : String)
    (q : PersistedPayload) (h : autoPlayerHighlightResult p tm pid = some q) :
    q.players = p.players ∧ q.state.teamA = p.state.teamA ∧
    q.state.teamB = p.state.teamB ∧ q.state.possession = p.state.possession ∧
    q.state.shotClockSeconds = p.state.shotClockSeconds ∧
    q.state.shotClockRunning = p.state.shotClockRunning ∧
    q.state.gameClockRunning = p.state.gameClockRunning ∧
    q.state.gameClockSeconds = p.state.gameClockSeconds ∧
    q.state.gameFinal = p.state.gameFinal ∧
    q.actionLog.length = min 250 (p.actionLog.length + 1) := by
  unfold autoPlayerHighlightResult at h
  cases hfind : findById pid (getPlayers p tm) with
  | none => rw [hfind] at h; exact absurd h (by simp)
  | some player =>
    rw [hfind] at h
    dsimp only at h
    cases h1 : tryPlayerMilestone p tm pid player .pts with
    | some q1 =>
      rw [h1] at h; dsimp only [Option.orElse] at h
      exact Option.some.inj h ▸ tryPlayerMilestone_pres p tm pid player .pts q1 h1
    | none =>
      rw [h1] at h; dsimp only [Option.orElse] at h
      cases h2 : tryPlayerMilestone p tm pid player .reb with
      | some q2 =>
        rw [h2] at h; dsimp only [Option.orElse] at h
        exact Option.some.inj h ▸ tryPlayerMilestone_pres p tm pid player .reb q2 h2
      | none =>
        rw [h2] at h; dsimp only [Option.orElse] at h
        cases h3 : tryPlayerMilestone p tm pid player .stl with
        | some q3 =>
          rw [h3] at h; dsimp only [Option.orElse] at h
          exact Option.some.inj h ▸ tryPlayerMilestone_pres p tm pid player .stl q3 h3
        | none =>
          rw [h3] at h; dsimp only [Option.orElse] at h
          cases h4 : tryPlayerMilestone p tm pid player .blk with
          | some q4 =>
            rw [h4] at h; dsimp only [Option.orElse] at h
            exact Option.some.inj h ▸ tryPlayerMilestone_pres p tm pid player .blk q4 h4
          | none =>
            rw [h4] at h; dsimp only [Option.orElse] at h
            exact tryPlayerMilestone_pres p tm pid player .tpm q h

theorem maybeAutoPlayerHighlight_pres (p : PersistedPayload) (tm : Team) (pid : String) :
    (maybeAutoPlayerHighlight p tm pid).players = p.players ∧
    (maybeAutoPlayerHighlight p tm pid).state.teamA = p.state.teamA ∧
    (maybeAutoPlayerHighlight p tm pid).state.teamB = p.state.teamB ∧
    (maybeAutoPlayerHighlight p tm pid).state.possession = p.state.possession ∧
    (maybeAutoPlayerHighlight p tm pid).state.shotClockSeconds = p.state.shotClockSeconds ∧
    (maybeAutoPlayerHighlight p tm pid).state.shotClockRunning = p.state.shotClockRunning ∧
    (maybeAutoPlayerHighlight p tm pid).state.gameClockRunning = p.state.gameClockRunning ∧
    (maybeAutoPlayerHighlight p tm pid).state.gameClockSeconds = p.state.gameClockSeconds ∧
    (maybeAutoPlayerHighlight p tm pid).state.gameFinal = p.state.gameFinal := by
  unfold maybeAutoPlayerHighlight
  cases h : autoPlayerHighlightResult p tm pid with
  | none => exact ⟨rfl, rfl, rfl, rfl, rfl, rfl, rfl, rfl, rfl⟩
  | some q =>
    have hp := autoPlayerHighlightResult_pres p tm pid q h
    exact ⟨hp.1, hp.2.1, hp.2.2.1, hp.2.2.2.1, hp.2.2.2.2.1, hp.2.2.2.2.2.1,
      hp.2.2.2.2.2.2.1, hp.2.2.2.2.2.2.2.1, hp.2.2.2.2.2.2.2.2.1⟩

theorem logLen_maybeAutoPlayerHighlight (p : PersistedPayload) (tm : Team) (pid : String)
    (n : Nat) (hn : n ≤ p.actionLog.length) (h250 : n ≤ 250) :
    n ≤ (maybeAutoPlayerHighlight p tm pid).actionLog.length := by
  unfold maybeAutoPlayerHighlight
  cases h : autoPlayerHighlightResult p tm pid with
  | none => exact hn
  | some q =>
    have hp := (autoPlayerHighlightResult_pres p tm pid q h).2.2.2.2.2.2.2.2.2
    simp only [Option.getD]
    omega

theorem teamComparisonReb_pres (p : PersistedPayload) (q : PersistedPayload)
    (h : teamComparisonReb p = some q) :
    q.players = p.players ∧ q.state.teamA = p.state.teamA ∧
    q.state.teamB = p.state.teamB ∧ q.state.possession = p.state.possession ∧
    q.state.shotClockSeconds = p.state.shotClockSeconds ∧
    q.state.shotClockRunning = p.state.shotClockRunning ∧
    q.state.gameClockRunning = p.state.gameClockRunning ∧
    q.state.gameClockSeconds = p.state.gameClockSeconds ∧
    q.state.gameFinal = p.state.gameFinal ∧
    q.actionLog.length = min 250 (p.actionLog.length + 1) := by
  simp only [teamComparisonReb] at h
  split at h
  · exact absurd h (by simp)
  · split at h
    · split at h
      · exact absurd h (by simp)
      · have hq := Option.some.inj h
        rw [← hq]
        exact ⟨rfl, rfl, rfl, rfl, rfl, rfl, rfl, rfl, rfl, logLen_withActionLog _ _⟩
    · exact absurd h (by simp)

theorem teamComparisonFb_pres (p : PersistedPayload) (q : PersistedPayload)
    (h : teamComparisonFb p = some q) :
    q.players = p.players ∧ q.state.teamA = p.state.teamA ∧
    q.state.teamB = p.state.teamB ∧ q.state.possession = p.state.possession ∧
    q.state.shotClockSeconds = p.state.shotClockSeconds ∧
    q.state.shotClockRunning = p.state.shotClockRunning ∧
    q.state.gameClockRunning = p.state.gameClockRunning ∧
    q.state.gameClockSeconds = p.state.gameClockSeconds ∧
    q.state.gameFinal = p.state.gameFinal ∧
    q.actionLog.length = min 250 (p.actionLog.length + 1) := by
  simp only [teamComparisonFb] at h
  split at h
  · exact absurd h (by simp)
  · split at h
    · split at h
      · exact absurd h (by simp)
      · have hq := Option.some.inj h
        rw [← hq]
        exact ⟨rfl, rfl, rfl, rfl, rfl, rfl, rfl, rfl, rfl, logLen_withActionLog _ _⟩
    · exact absurd h (by simp)

theorem maybeAutoTeamComparison_pres (p : PersistedPayload) :
    (maybeAutoTeamComparison p).players = p.players ∧
    (maybeAutoTeamComparison p).state.teamA = p.state.teamA ∧
    (maybeAutoTeamComparison p).state.teamB = p.state.teamB ∧
    (maybeAutoTeamComparison p).state.possession = p.state.possession ∧
    (maybeAutoTeamComparison p).state.shotClockSeconds = p.state.shotClockSeconds ∧
    (maybeAutoTeamComparison p).state.shotClockRunning = p.state.shotClockRunning ∧
    (maybeAutoTeamComparison p).state.gameClockRunning = p.state.gameClockRunning ∧
    (maybeAutoTeamComparison p).state.gameClockSeconds = p.state.gameClockSeconds ∧
    (maybeAutoTeamComparison p).state.gameFinal = p.state.gameFinal := by
  unfold maybeAutoTeamComparison
  by_cases h1 : (!canAutoHighlight p) = true
  · rw [if_pos h1]
    exact ⟨rfl, rfl, rfl, rfl, rfl, rfl, rfl, rfl, rfl⟩
  · rw [if_neg h1]
    cases hreb : teamComparisonReb p with
    | some q =>
      have hp := teamComparisonReb_pres p q hreb
      exact ⟨hp.1, hp.2.1, hp.2.2.1, hp.2.2.2.1, hp.2.2.2.2.1, hp.2.2.2.2.2.1,
        hp.2.2.2.2.2.2.1, hp.2.2.2.2.2.2.2.1, hp.2.2.2.2.2.2.2.2.1⟩
    | none =>
      cases hfb : teamComparisonFb p with
      | none => exact ⟨rfl, rfl, rfl, rfl, rfl, rfl, rfl, rfl, rfl⟩
      | some q =>
        have hp := teamComparisonFb_pres p q hfb
        exact ⟨hp.1, hp.2.1, hp.2.2.1, hp.2.2.2.1, hp.2.2.2.2.1, hp.2.2.2.2.2.1,
          hp.2.2.2.2.2.2.1, hp.2.2.2.2.2.2.2.1, hp.2.2.2.2.2.2.2.2.1⟩

theorem logLen_maybeAutoTeamComparison (p : PersistedPayload)
    (n : Nat) (hn : n ≤ p.actionLog.length) (h250 : n ≤ 250) :
    n ≤ (maybeAutoTeamComparison p).actionLog.length := by
  unfold maybeAutoTeamComparison
  by_cases h1 : (!canAutoHighlight p) = true
  · rw [if_pos h1]; exact hn
  · rw [if_neg h1]
    cases hreb : teamComparisonReb p with
    | some q =>
      have hp := (teamComparisonReb_pres p q hreb).2.2.2.2.2.2.2.2.2
      dsimp only
      omega
    | none =>
      cases hfb : teamComparisonFb p with
      | none => exact hn
      | some q =>
        have hp := (teamComparisonFb_pres p q hfb).2.2.2.2.2.2.2.2.2
        simp only [Option.getD]
        omega

/-! ### Per-branch roster lemmas for the five-on-court bound -/

theorem bound_players_eq (p q : PersistedPayload) (he : q.players = p.players)
    (h : onCourtBound p) : onCourtBound q := by
  unfold onCourtBound at h ⊢
  rw [he]
  exact h

theorem getPlayers_bound (payload : PersistedPayload) (h : onCourtBound payload) (tm : Team) :
    countOnCourt (getPlayers payload tm) ≤ 5 := by
  cases tm
  · exact h.1
  · exact h.2

theorem setPlayersList_bound (payload : PersistedPayload) (tm : Team) (l : List PlayerState)
    (h : onCourtBound payload) (hl : countOnCourt l ≤ 5) :
    onCourtBound (setPlayersList payload tm l) := by
  cases tm
  · exact ⟨hl, h.2⟩
  · exact ⟨h.1, hl⟩

theorem getPlayers_setState (payload : PersistedPayload) (s : ScoreboardState) (tm : Team) :
    getPlayers { payload with state := s } tm = getPlayers payload tm := by
  cases tm <;> rfl

theorem recalcTeamFouls_players (p : PersistedPayload) (tm : Team) :
    (recalcTeamFouls p tm).players = p.players := by
  cases tm <;> rfl

theorem setPossession_players (p : PersistedPayload) (tm : Team) :
    (setPossession p tm).players = p.players := rfl

theorem resetQuarter_players (p : PersistedPayload) :
    (resetQuarter p).players = p.players := rfl

theorem beginOverlay_players (p : PersistedPayload) (m : OverlayMode) (lb : String) (s : Int) :
    (beginOverlay p m lb s).players = p.players := rfl

theorem endOverlay_players (p : PersistedPayload) :
    (endOverlay p).players = p.players := by
  unfold endOverlay
  cases hov : p.state.overlayMode with
  | none => rfl
  | some mode =>
    cases mode with
    | halftime =>
      dsimp only
      split <;> rfl
    | timeout => rfl

theorem applyOpenTimeout_players (p : PersistedPayload) (tm : Team) (s : Int) :
    (applyOpenTimeout p tm s).players = p.players := by
  unfold applyOpenTimeout
  cases tm <;> rfl

theorem applyShowTvStarPlayer_players (p : PersistedPayload) (tm : Team) (pid : String) :
    (applyShowTvStarPlayer p tm pid).players = p.players := by
  unfold applyShowTvStarPlayer
  cases h : findById pid (getPlayers p tm) <;> rfl

theorem addPointsPlayersPart_bound (payload : PersistedPayload) (tm : Team) (pts : Int)
    (pid : Option String) (h : onCourtBound payload) :
    onCourtBound (addPointsPlayersPart payload tm pts pid) := by
  unfold addPointsPlayersPart
  dsimp only
  split
  · refine setPlayersList_bound _ tm _ ?_ ?_
    · exact bound_players_eq payload _ rfl h
    · rw [countOnCourt_map_eq]
      · rw [getPlayers_setState]
        exact getPlayers_bound payload h tm
      · intro p
        split <;> rfl
  · exact bound_players_eq payload _ rfl h

theorem addPointsEffectsPart_players (p2 : PersistedPayload) (tm : Team) (pts : Int)
    (pid : Option String) :
    (addPointsEffectsPart p2 tm pts pid).players = p2.players := by
  unfold addPointsEffectsPart
  split
  · dsimp only
    cases hpl : (if isTruthyId pid = true then findById (pid.getD "") (getPlayers p2 tm) else none) with
    | none =>
      dsimp only
      split <;> first | rfl | (split <;> rfl)
    | some pl =>
      dsimp only
      split <;> first | rfl | (split <;> rfl)
  · rfl

theorem applyAddPoints_bound (payload : PersistedPayload) (tm : Team) (pts : Int)
    (pid : Option String) (h : onCourtBound payload) :
    onCourtBound (applyAddPoints payload tm pts pid) := by
  unfold applyAddPoints
  split
  · exact h
  · split
    · exact h
    · dsimp only
      apply bound_players_eq _ _ ((maybeAutoTeamComparison_pres _).1)
      have hb3 : onCourtBound (addPointsEffectsPart (addPointsPlayersPart payload tm pts pid) tm pts pid) := by
        apply bound_players_eq _ _ (addPointsEffectsPart_players _ _ _ _)
        exact addPointsPlayersPart_bound payload tm pts pid h
      split
      · exact bound_players_eq _ _ ((maybeAutoPlayerHighlight_pres _ _ _).1) hb3
      · exact hb3

theorem applyAddFastBreakPoints_players (payload : PersistedPayload) (tm : Team) (pts : Int) :
    (applyAddFastBreakPoints payload tm pts).players = payload.players := by
  unfold applyAddFastBreakPoints
  split
  · rfl
  · split
    · rfl
    · dsimp only
      rw [(maybeAutoTeamComparison_pres _).1, setPossession_players, withActionLog_players]

theorem setIncStat_onCourt (p : PlayerState) (st : IncStat) (v : Int) :
    (setIncStat p st v).onCourt = p.onCourt := by
  cases st <;> rfl

theorem setIncStat_id (p : PlayerState) (st : IncStat) (v : Int) :
    (setIncStat p st v).id = p.id := by
  cases st <;> rfl

theorem setIncStat_fls_of_ne (p : PlayerState) (st : IncStat) (v : Int)
    (h : ¬st = IncStat.fls) : (setIncStat p st v).fls = p.fls := by
  cases st
  · rfl
  · rfl
  · rfl
  · rfl
  · exact absurd rfl h

theorem incStatPlayer_fst_onCourt (fl am : Int) (st : IncStat) (pid : String)
    (p : PlayerState) :
    ((incStatPlayer fl am st pid p).1).onCourt = true → p.onCourt = true := by
  unfold incStatPlayer
  split
  · exact fun hh => hh
  · dsimp only
    split
    · intro hh
      exact absurd hh (by simp)
    · intro hh
      rw [setIncStat_onCourt] at hh
      exact hh

theorem incStatPlayer_fst_fls (fl am : Int) (st : IncStat) (pid : String)
    (p : PlayerState) (hst : ¬st = IncStat.fls) :
    ((incStatPlayer fl am st pid p).1).fls = p.fls := by
  unfold incStatPlayer
  split
  · rfl
  · dsimp only
    split
    · rename_i hcross
      exact absurd hcross.1 hst
    · exact setIncStat_fls_of_ne p st _ hst

theorem applyIncPlayerStat_players (payload : PersistedPayload) (tm : Team) (pid : String)
    (st : IncStat) (am : Option Int) :
    (applyIncPlayerStat payload tm pid st am).players =
      (setPlayersList payload tm
        (((getPlayers payload tm).map
          (incStatPlayer payload.state.foulLimit (am.getD 1) st pid)).map Prod.fst)).players := by
  unfold applyIncPlayerStat
  dsimp only
  rw [(maybeAutoTeamComparison_pres _).1, (maybeAutoPlayerHighlight_pres _ _ _).1]
  split
  all_goals (try rw [withActionLog_players])
  all_goals split
  all_goals (try split)
  all_goals (try rw [withActionLog_players])
  all_goals (try split)
  all_goals (try rw [recalcTeamFouls_players])
  all_goals (try split)
  all_goals (try rw [recalcTeamFouls_players])
  all_goals rfl

theorem applyIncPlayerStat_bound (payload : PersistedPayload) (tm : Team) (pid : String)
    (st : IncStat) (am : Option Int) (h : onCourtBound payload) :
    onCourtBound (applyIncPlayerStat payload tm pid st am) := by
  apply bound_players_eq _ _ (applyIncPlayerStat_players payload tm pid st am)
  refine setPlayersList_bound _ tm _ h ?_
  rw [List.map_map]
  calc countOnCourt ((getPlayers payload tm).map
        (Prod.fst ∘ incStatPlayer payload.state.foulLimit (am.getD 1) st pid))
      ≤ countOnCourt (getPlayers payload tm) :=
        countOnCourt_map_le _ (fun p => incStatPlayer_fst_onCourt _ _ _ _ p) _
    _ ≤ 5 := getPlayers_bound payload h tm

theorem applySetPlayerOnCourt_bound (payload : PersistedPayload) (tm : Team) (pid : String)
    (oc : Bool) (h : onCourtBound payload)
    (hnd : ((getPlayers payload tm).map (fun p => p.id)).Nodup) :
    onCourtBound (applySetPlayerOnCourt payload tm pid oc) := by
  unfold applySetPlayerOnCourt
  dsimp only
  cases hfind : findById pid (getPlayers payload tm) with
  | none => exact h
  | some target =>
    dsimp only
    split
    · exact h
    · split
      · exact h
      · rename_i hguard
        refine setPlayersList_bound _ tm _ h ?_
        have hcount := countOnCourt_map_update pid oc (fun p => { p with onCourt := oc })
          (fun p => rfl) (getPlayers payload tm) target hnd hfind
        have hb := getPlayers_bound payload h tm
        cases oc with
        | false =>
          by_cases hto : target.onCourt = true <;> simp [hto] at hcount <;> omega
        | true =>
          by_cases hto : target.onCourt = true
          · simp [hto] at hcount
            omega
          · have hlt : countOnCourt (getPlayers payload tm) < 5 := by
              by_contra hge
              apply hguard
              simp [hto]
              omega
            simp [hto] at hcount
            omega

theorem applySubstitutePlayer_bound (payload : PersistedPayload) (tm : Team)
    (outId inId : String) (h : onCourtBound payload)
    (hnd : ((getPlayers payload tm).map (fun p => p.id)).Nodup) :
    onCourtBound (applySubstitutePlayer payload tm outId inId) := by
  unfold applySubstitutePlayer
  dsimp only
  cases hfo : findById outId (getPlayers payload tm) with
  | none => exact h
  | some playerOut =>
    cases hfi : findById inId (getPlayers payload tm) with
    | none => exact h
    | some playerIn =>
      dsimp only
      split
      · exact h
      · rename_i hguard
        simp only [Bool.or_eq_true, not_or, Bool.not_eq_true', Bool.not_eq_false,
          Bool.not_eq_true] at hguard
        obtain ⟨⟨hout, hin⟩, hinf⟩ := hguard
        have hne : ¬outId = inId := by
          intro heq
          rw [heq, hfi] at hfo
          have hoi : playerIn = playerOut := Option.some.inj hfo
          rw [hoi, hout] at hin
          exact absurd hin (by decide)
        apply bound_players_eq _ _ (withActionLog_players _ _)
        refine setPlayersList_bound _ tm _ h ?_
        have hsplit : (getPlayers payload tm).map (fun p =>
            if p.id = outId then { p with onCourt := false }
            else if p.id = inId then { p with onCourt := true } else p)
          = ((getPlayers payload tm).map
              (fun p => if p.id = outId then { p with onCourt := false } else p)).map
              (fun p => if p.id = inId then { p with onCourt := true } else p) := by
          rw [List.map_map]
          apply List.map_congr_left
          intro p _
          by_cases h1 : p.id = outId
          · have h2 : ¬p.id = inId := fun hh => hne (h1 ▸ hh)
            simp only [Function.comp, if_pos h1]
            rw [if_neg (by simpa using h2)]
          · by_cases h2 : p.id = inId
            · simp only [Function.comp, if_neg h1, if_pos h2]
            · simp only [Function.comp, if_neg h1, if_neg h2]
        rw [hsplit]
        have hid1 : ∀ p : PlayerState,
            ((fun p => if p.id = outId then { p with onCourt := false } else p) p).id = p.id := by
          intro p
          dsimp only
          split <;> rfl
        have hc1 := countOnCourt_map_update outId false
          (fun p => { p with onCourt := false }) (fun p => rfl)
          (getPlayers payload tm) playerOut hnd hfo
        have hnd2 : (((getPlayers payload tm).map
            (fun p => if p.id = outId then { p with onCourt := false } else p)).map
              (fun p => p.id)).Nodup := by
          rw [ids_map_eq _ hid1]
          exact hnd
        have hfi2 : findById inId ((getPlayers payload tm).map
            (fun p => if p.id = outId then { p with onCourt := false } else p)) = some playerIn := by
          rw [findById_map inId _ hid1, hfi]
          have hiid : playerIn.id = inId := findById_id inId _ playerIn hfi
          have hnio : ¬playerIn.id = outId := by
            rw [hiid]
            exact fun hh => hne hh.symm
          show some (if playerIn.id = outId then { playerIn with onCourt := false } else playerIn)
            = some playerIn
          rw [if_neg hnio]
        have hc2 := countOnCourt_map_update inId true
          (fun p => { p with onCourt := true }) (fun p => rfl)
          ((getPlayers payload tm).map
            (fun p => if p.id = outId then { p with onCourt := false } else p)) playerIn hnd2 hfi2
        have hb := getPlayers_bound payload h tm
        rw [hout] at hc1
        rw [hin] at hc2
        simp only [if_true, if_false] at hc1 hc2
        omega

theorem applyAddPlayer_bound (payload : PersistedPayload) (tm : Team) (nm : String)
    (num : Int) (oc : Bool) (now : Int) (h : onCourtBound payload) :
    onCourtBound (applyAddPlayer payload tm nm num oc now) := by
  unfold applyAddPlayer
  dsimp only
  refine setPlayersList_bound _ tm _ h ?_
  rw [countOnCourt_append]
  have hb := getPlayers_bound payload h tm
  by_cases hflag : (oc && decide (countOnCourt (getPlayers payload tm) < 5)) = true
  · have hlt : countOnCourt (getPlayers payload tm) < 5 := by
      have hconj := hflag
      simp only [Bool.and_eq_true, decide_eq_true_eq] at hconj
      exact hconj.2
    show countOnCourt (getPlayers payload tm) +
      ((if (oc && decide (countOnCourt (getPlayers payload tm) < 5)) = true then 1 else 0) + 0) ≤ 5
    rw [if_pos hflag]
    omega
  · show countOnCourt (getPlayers payload tm) +
      ((if (oc && decide (countOnCourt (getPlayers payload tm) < 5)) = true then 1 else 0) + 0) ≤ 5
    rw [if_neg hflag]
    omega

theorem applyUpdatePlayer_bound (payload : PersistedPayload) (tm : Team) (pid : String)
    (updates : PlayerUpdates) (h : onCourtBound payload)
    (hnd : ((getPlayers payload tm).map (fun p => p.id)).Nodup) :
    onCourtBound (applyUpdatePlayer payload tm pid updates) := by
  unfold applyUpdatePlayer
  dsimp only
  cases hfind : findById pid (getPlayers payload tm) with
  | none => exact h
  | some target =>
    dsimp only
    split
    · exact h
    · rename_i hguard
      apply bound_players_eq _ _ (recalcTeamFouls_players _ _)
      refine setPlayersList_bound _ tm _ h ?_
      have hb := getPlayers_bound payload h tm
      cases huo : updates.onCourt with
      | none =>
        rw [countOnCourt_map_eq]
        · exact hb
        · intro p
          split <;> rfl
      | some b =>
        have hcount := countOnCourt_map_update pid b
          (fun p => { p with
            name := updates.name.getD p.name
            number := updates.number.getD p.number
            onCourt := (some b).getD p.onCourt })
          (fun p => rfl) (getPlayers payload tm) target hnd hfind
        cases b with
        | false =>
          by_cases hto : target.onCourt = true <;> simp [hto] at hcount ⊢ <;> omega
        | true =>
          by_cases hto : target.onCourt = true
          · simp [hto] at hcount ⊢
            omega
          · have hlt : countOnCourt (getPlayers payload tm) < 5 := by
              by_contra hge
              apply hguard
              refine ⟨⟨?_, ?_⟩, ?_⟩
              · exact huo
              · simp only [Bool.not_eq_true] at hto
                exact hto
              · omega
            simp [hto] at hcount ⊢
            omega

theorem applyDeletePlayer_bound (payload : PersistedPayload) (tm : Team) (pid : String)
    (h : onCourtBound payload) : onCourtBound (applyDeletePlayer payload tm pid) := by
  unfold applyDeletePlayer
  apply bound_players_eq _ _ (recalcTeamFouls_players _ _)
  refine setPlayersList_bound _ tm _ h ?_
  exact le_trans (countOnCourt_filter_le _ _) (getPlayers_bound payload h tm)

theorem countOnCourt_buildAux (tm : Team) (now : Int) :
    ∀ (roster : List RosterEntry) (idx : Nat),
      countOnCourt (buildLivePlayersAux tm now idx roster) ≤ 5 - idx := by
  intro roster
  induction roster with
  | nil => intro idx; exact Nat.zero_le _
  | cons r rest ih =>
    intro idx
    show (if decide (idx < 5) = true then 1 else 0) +
      countOnCourt (buildLivePlayersAux tm now (idx + 1) rest) ≤ 5 - idx
    have hrec := ih (idx + 1)
    by_cases h5 : idx < 5
    · simp only [decide_eq_true_eq, h5, if_true]
      omega
    · have : decide (idx < 5) = false := by simpa using h5
      rw [this]
      simp only [Bool.false_eq_true, if_false]
      omega

theorem countOnCourt_buildLivePlayers (tm : Team) (roster : List RosterEntry) (now : Int) :
    countOnCourt (buildLivePlayers tm roster now) ≤ 5 := by
  unfold buildLivePlayers
  exact le_trans (countOnCourt_buildAux tm now _ 0) (by omega)

theorem applyLoadGame_bound (payload : PersistedPayload) (home away : LoadGameTeamInput)
    (rules : Option LoadGameRulesInput) (now : Int) :
    onCourtBound (applyLoadGame payload home away rules now) := by
  exact ⟨countOnCourt_buildLivePlayers Team.A home.players now,
    countOnCourt_buildLivePlayers Team.B away.players now⟩

theorem applyTick_bound (payload : PersistedPayload) (h : onCourtBound payload) :
    onCourtBound (applyTick payload) := by
  unfold applyTick
  dsimp only
  split
  · split
    · apply bound_players_eq _ _ (endOverlay_players _)
      exact bound_players_eq payload _ rfl h
    · exact bound_players_eq payload _ rfl h
  · split
    · constructor
      · rw [countOnCourt_map_eq]
        · exact h.1
        · intro p
          split <;> rfl
      · rw [countOnCourt_map_eq]
        · exact h.2
        · intro p
          split <;> rfl
    · exact h

theorem idsNodup_team (payload : PersistedPayload) (h : idsNodup payload) (tm : Team) :
    ((getPlayers payload tm).map (fun p => p.id)).Nodup := by
  cases tm
  · exact h.1
  · exact h.2

/-- Claim C1, counterexample: a snapshot satisfying the five-on-court bound
(team A has four players on court) in which two bench players share the id
`"dup"`; dispatching `SET_PLAYER_ON_COURT` for that id puts both matching
players on court, producing six players on court, so the bound is not
preserved by every action on every bound-satisfying snapshot. -/
theorem c1_counterexample :
    onCourtBound c1Payload ∧
      ¬onCourtBound (reducer c1Payload
        (ScoreboardAction.SET_PLAYER_ON_COURT Team.A "dup" true) 0) := by
  constructor
  · unfold onCourtBound
    decide
  · unfold onCourtBound
    decide

/-- Claim C1 (amended): for a snapshot in which each team has at most 5
players with `onCourt = true` and whose player ids are pairwise distinct
within each team, every action preserves the bound, provided that a `HYDRATE`
action installs a payload that itself satisfies the bound (`HYDRATE` replaces
the snapshot verbatim). In particular `SET_PLAYER_ON_COURT`, `UPDATE_PLAYER`,
`ADD_PLAYER` and `SUBSTITUTE_PLAYER` never raise the on-court count above 5. -/
theorem c1_amended (payload : PersistedPayload) (action : ScoreboardAction) (now : Int)
    (hb : onCourtBound payload) (hnd : idsNodup payload) (hh : hydrateSafe action) :
    onCourtBound (reducer payload action now) := by
  cases action with
  | ADD_POINTS team points playerId => exact applyAddPoints_bound payload team points playerId hb
  | ADD_FAST_BREAK_POINTS team points =>
    exact bound_players_eq _ _ (applyAddFastBreakPoints_players payload team points) hb
  | SET_TEAM_NAME team name => cases team <;> exact hb
  | SET_TEAM_COLOR team color => cases team <;> exact hb
  | SET_TEAM_LOGO team logoUrl => cases team <;> exact hb
  | LOAD_GAME home away rules => exact applyLoadGame_bound payload home away rules now
  | SET_POSSESSION team => exact bound_players_eq _ _ (setPossession_players payload team) hb
  | START_GAME =>
    show onCourtBound (if payload.state.overlayMode.isSome then payload else _)
    split <;> exact hb
  | STOP_GAME => exact hb
  | FINISH_GAME => exact hb
  | START_SHOT =>
    show onCourtBound (if payload.state.overlayMode.isSome then payload else _)
    split <;> exact hb
  | STOP_SHOT => exact hb
  | RESET_QUARTER => exact bound_players_eq _ _ (resetQuarter_players payload) hb
  | PREV_QUARTER => exact bound_players_eq _ _ (resetQuarter_players _) hb
  | NEXT_QUARTER => exact bound_players_eq _ _ (resetQuarter_players _) hb
  | RESET_SHOT seconds => exact hb
  | INC_FOUL team => cases team <;> exact hb
  | USE_TIMEOUT team => exact bound_players_eq _ _ (applyOpenTimeout_players payload team 60) hb
  | OPEN_TIMEOUT team seconds =>
    exact bound_players_eq _ _ (applyOpenTimeout_players payload team seconds) hb
  | START_HALFTIME minutes => exact hb
  | END_OVERLAY manual => exact bound_players_eq _ _ (endOverlay_players payload) hb
  | SHOW_TV_STAR_PLAYER team playerId =>
    exact bound_players_eq _ _ (applyShowTvStarPlayer_players payload team playerId) hb
  | DISMISS_TV_STAR_PLAYER => exact hb
  | INC_PLAYER_STAT team playerId stat amount =>
    exact applyIncPlayerStat_bound payload team playerId stat amount hb
  | SET_PLAYER_ON_COURT team playerId onCourt =>
    exact applySetPlayerOnCourt_bound payload team playerId onCourt hb
      (idsNodup_team payload hnd team)
  | SUBSTITUTE_PLAYER team playerOutId playerInId =>
    exact applySubstitutePlayer_bound payload team playerOutId playerInId hb
      (idsNodup_team payload hnd team)
  | ADD_PLAYER team name number onCourt =>
    exact applyAddPlayer_bound payload team name number onCourt now hb
  | UPDATE_PLAYER team playerId updates =>
    exact applyUpdatePlayer_bound payload team playerId updates hb
      (idsNodup_team payload hnd team)
  | DELETE_PLAYER team playerId => exact applyDeletePlayer_bound payload team playerId hb
  | ADD_LOG text => exact hb
  | TICK => exact applyTick_bound payload hb
  | HYDRATE hydrated => exact hh

/-- Witness for C1 (amended) at a concrete input: the default snapshot
satisfies every hypothesis and the bound is preserved by a sample action. -/
theorem c1_amended_witness :
    onCourtBound (defaultPayload 0) ∧ idsNodup (defaultPayload 0) ∧
      onCourtBound (reducer (defaultPayload 0) (ScoreboardAction.ADD_LOG "sample") 0) :=
  ⟨by unfold onCourtBound; decide, ⟨by decide, by decide⟩,
    c1_amended (defaultPayload 0) (ScoreboardAction.ADD_LOG "sample") 0
      (by unfold onCourtBound; decide) ⟨by decide, by decide⟩ trivial⟩

/-! ### Lemmas for the derived team-foul counter -/

theorem setPlayersList_state (p : PersistedPayload) (tm : Team) (l : List PlayerState) :
    (setPlayersList p tm l).state = p.state := by
  cases tm <;> rfl

theorem getPlayers_setPlayersList (p : PersistedPayload) (tm : Team) (l : List PlayerState) :
    getPlayers (setPlayersList p tm l) tm = l := by
  cases tm <;> rfl

theorem foulsSynced_of_pres (p q : PersistedPayload) (tm : Team)
    (hpl : q.players = p.players) (hA : q.state.teamA = p.state.teamA)
    (hB : q.state.teamB = p.state.teamB) (h : foulsSynced p tm) : foulsSynced q tm := by
  cases tm
  · unfold foulsSynced teamRec getPlayers
    rw [hA, hpl]
    exact h
  · unfold foulsSynced teamRec getPlayers
    rw [hB, hpl]
    exact h

theorem recalc_synced (p : PersistedPayload) (tm : Team) :
    foulsSynced (recalcTeamFouls p tm) tm := by
  cases tm <;> rfl

theorem foldl_fls_map (f : PlayerState → PlayerState) (hf : ∀ p, (f p).fls = p.fls) :
    ∀ (l : List PlayerState) (acc : Int),
      (l.map f).foldl (fun s p => s + p.fls) acc = l.foldl (fun s p => s + p.fls) acc := by
  intro l
  induction l with
  | nil => intro acc; rfl
  | cons p rest ih =>
    intro acc
    simp only [List.map_cons, List.foldl_cons, hf p]
    exact ih _

theorem sumFls_map_eq (f : PlayerState → PlayerState) (hf : ∀ p, (f p).fls = p.fls)
    (l : List PlayerState) : sumFls (l.map f) = sumFls l :=
  foldl_fls_map f hf l 0

theorem foulsSynced_withActionLog (p : PersistedPayload) (t : String) (tm : Team)
    (h : foulsSynced p tm) : foulsSynced (withActionLog p t) tm :=
  foulsSynced_of_pres p (withActionLog p t) tm rfl rfl rfl h

theorem foulsSynced_maybeTeam (p : PersistedPayload) (tm : Team)
    (h : foulsSynced p tm) : foulsSynced (maybeAutoTeamComparison p) tm :=
  foulsSynced_of_pres p (maybeAutoTeamComparison p) tm (maybeAutoTeamComparison_pres p).1
    (maybeAutoTeamComparison_pres p).2.1 (maybeAutoTeamComparison_pres p).2.2.1 h

theorem foulsSynced_maybePlayer (p : PersistedPayload) (hlTeam : Team) (pid : String)
    (tm : Team) (h : foulsSynced p tm) :
    foulsSynced (maybeAutoPlayerHighlight p hlTeam pid) tm :=
  foulsSynced_of_pres p (maybeAutoPlayerHighlight p hlTeam pid) tm
    (maybeAutoPlayerHighlight_pres p hlTeam pid).1
    (maybeAutoPlayerHighlight_pres p hlTeam pid).2.1
    (maybeAutoPlayerHighlight_pres p hlTeam pid).2.2.1 h

theorem c2_inc_case (payload : PersistedPayload) (tm : Team) (pid : String) (st : IncStat)
    (am : Option Int) (h : st = IncStat.fls ∨ foulsSynced payload tm) :
    foulsSynced (applyIncPlayerStat payload tm pid st am) tm := by
  unfold applyIncPlayerStat
  dsimp only
  apply foulsSynced_maybeTeam
  apply foulsSynced_maybePlayer
  by_cases hst : st = IncStat.fls
  · rw [if_pos hst]
    split
    · apply foulsSynced_withActionLog
      split
      · rw [if_neg (not_not_intro hst)]
        exact recalc_synced _ tm
      · exact recalc_synced _ tm
    · split
      · rw [if_neg (not_not_intro hst)]
        exact recalc_synced _ tm
      · exact recalc_synced _ tm
  · rw [if_neg hst]
    have hsync : foulsSynced payload tm := h.resolve_left hst
    have htarget : foulsSynced (setPlayersList payload tm
        (((getPlayers payload tm).map
          (incStatPlayer payload.state.foulLimit (am.getD 1) st pid)).map Prod.fst)) tm := by
      unfold foulsSynced
      rw [setPlayersList_state, getPlayers_setPlayersList, List.map_map]
      rw [sumFls_map_eq (Prod.fst ∘ incStatPlayer payload.state.foulLimit (am.getD 1) st pid)
        (fun p => incStatPlayer_fst_fls _ _ _ _ p hst)]
      exact hsync
    split
    · apply foulsSynced_withActionLog
      split
      · apply foulsSynced_withActionLog
        exact htarget
      · exact htarget
    · split
      · apply foulsSynced_withActionLog
        exact htarget
      · exact htarget

theorem c2_update_case (payload : PersistedPayload) (tm : Team) (pid : String)
    (updates : PlayerUpdates) (h : foulsSynced payload tm) :
    foulsSynced (applyUpdatePlayer payload tm pid updates) tm := by
  unfold applyUpdatePlayer
  dsimp only
  cases hfind : findById pid (getPlayers payload tm) with
  | none => exact h
  | some target =>
    dsimp only
    split
    · exact h
    · exact recalc_synced _ tm

theorem c2_delete_case (payload : PersistedPayload) (tm : Team) (pid : String) :
    foulsSynced (applyDeletePlayer payload tm pid) tm := by
  unfold applyDeletePlayer
  exact recalc_synced _ tm

/-- Claim C2, counterexample: a snapshot whose team-A foul counter (1) is out
of sync with the player records (all `fls = 0`); dispatching `INC_PLAYER_STAT`
with a non-foul stat (`reb`) performs no recompute, so afterwards the counter
still differs from the sum of the players' `fls` — the claimed equality does
not hold for every snapshot after every `INC_PLAYER_STAT`. -/
theorem c2_counterexample :
    (reducer c2Payload
        (ScoreboardAction.INC_PLAYER_STAT Team.A "A-0-0" IncStat.reb none) 0).state.teamA.fouls ≠
      sumFls ((reducer c2Payload
        (ScoreboardAction.INC_PLAYER_STAT Team.A "A-0-0" IncStat.reb none) 0).players.A) := by
  decide

/-- Claim C2 (amended): after `INC_PLAYER_STAT` with `stat = fls`, after
`UPDATE_PLAYER` on a snapshot whose affected team was already in sync, and
after `DELETE_PLAYER` unconditionally, the affected team's `fouls` counter
equals the sum of `fls` over that team's players; for `INC_PLAYER_STAT` with
any other stat the equality is preserved whenever it held before. Within
these three actions the counter changes only through `recalcTeamFouls`;
`INC_FOUL` (team-only fouls), by contrast, increments the counter without a
recompute. -/
theorem c2_amended (payload : PersistedPayload) (now : Int) (team : Team)
    (playerId : String) (stat : IncStat) (amount : Option Int) (updates : PlayerUpdates)
    (pidU pidD : String) :
    (stat = IncStat.fls ∨ foulsSynced payload team →
      foulsSynced (reducer payload
        (ScoreboardAction.INC_PLAYER_STAT team playerId stat amount) now) team) ∧
    (foulsSynced payload team →
      foulsSynced (reducer payload (ScoreboardAction.UPDATE_PLAYER team pidU updates) now) team) ∧
    foulsSynced (reducer payload (ScoreboardAction.DELETE_PLAYER team pidD) now) team := by
  refine ⟨?_, ?_, ?_⟩
  · intro h
    exact c2_inc_case payload team playerId stat amount h
  · intro h
    exact c2_update_case payload team pidU updates h
  · exact c2_delete_case payload team pidD

/-- Witness for C2 (amended) at a concrete input: the default snapshot is in
sync and stays in sync after a rebound increment, a player update, and a
player deletion. -/
theorem c2_amended_witness :
    foulsSynced (defaultPayload 0) Team.A ∧
      foulsSynced (reducer (defaultPayload 0)
        (ScoreboardAction.INC_PLAYER_STAT Team.A "A-0-0" IncStat.reb none) 0) Team.A :=
  ⟨by unfold foulsSynced; decide,
    (c2_amended (defaultPayload 0) 0 Team.A "A-0-0" IncStat.reb none
        { name := none, number := none, onCourt := none } "A-0-0" "A-0-0").1
      (Or.inr (by unfold foulsSynced; decide))⟩

/-- Claim C3: the code contradicts the fouled-out invariant. `c3Payload`'s
only team-A player `"a1"` has fouled out (`fls = 5`, `fouledOut = true`,
`onCourt = false`), yet `ADD_POINTS` with `playerId = "a1"` mutates the
player's points (no `fouledOut` guard in that branch, unlike
`INC_PLAYER_STAT`, `SET_PLAYER_ON_COURT` and `SUBSTITUTE_PLAYER`), and
`UPDATE_PLAYER` with `onCourt = true` returns the fouled-out player to the
court. Every UI dispatch site disables these controls for fouled-out players,
so the reducer branches missing the guard diverge from the intended
invariant stated in the spec. -/
theorem c3_code_divergence :
    (findById "a1" c3Payload.players.A).map (fun p => p.pts) = some 0 ∧
    (findById "a1" c3Payload.players.A).map (fun p => p.fouledOut) = some true ∧
    (findById "a1" c3Payload.players.A).map (fun p => p.onCourt) = some false ∧
    (findById "a1" ((reducer c3Payload
        (ScoreboardAction.ADD_POINTS Team.A 2 (some "a1")) 0).players.A)).map (fun p => p.pts)
      = some 2 ∧
    (findById "a1" ((reducer c3Payload
        (ScoreboardAction.UPDATE_PLAYER Team.A "a1"
          { name := none, number := none, onCourt := some true }) 0).players.A)).map
        (fun p => p.onCourt) = some true ∧
    (findById "a1" ((reducer c3Payload
        (ScoreboardAction.UPDATE_PLAYER Team.A "a1"
          { name := none, number := none, onCourt := some true }) 0).players.A)).map
        (fun p => p.fouledOut) = some true := by
  decide

/-! ### Lemmas for `ADD_POINTS` (claim C4) -/

theorem teamRec_setTeamRec (s : ScoreboardState) (tm : Team) (r : TeamRecord) :
    teamRec (setTeamRec s tm r) tm = r := by
  cases tm <;> rfl

theorem setTeamRec_shotClockDefault (s : ScoreboardState) (tm : Team) (r : TeamRecord) :
    (setTeamRec s tm r).shotClockDefault = s.shotClockDefault := by
  cases tm <;> rfl

theorem setPlayersList_actionLog (p : PersistedPayload) (tm : Team) (l : List PlayerState) :
    (setPlayersList p tm l).actionLog = p.actionLog := by
  cases tm <;> rfl

theorem teamRec_congr (p q : PersistedPayload) (hA : q.state.teamA = p.state.teamA)
    (hB : q.state.teamB = p.state.teamB) (tm : Team) :
    teamRec q.state tm = teamRec p.state tm := by
  cases tm <;> assumption

theorem getPlayers_congr (p q : PersistedPayload) (h : q.players = p.players) (tm : Team) :
    getPlayers q tm = getPlayers p tm := by
  cases tm
  · show q.players.A = p.players.A
    rw [h]
  · show q.players.B = p.players.B
    rw [h]

theorem addPointsPlayersPart_state (payload : PersistedPayload) (tm : Team) (pts : Int)
    (pid : Option String) :
    (addPointsPlayersPart payload tm pts pid).state =
      setTeamRec payload.state tm
        { teamRec payload.state tm with score := max 0 ((teamRec payload.state tm).score + pts) } := by
  unfold addPointsPlayersPart
  dsimp only
  split
  · rw [setPlayersList_state]
  · rfl

theorem addPointsPlayersPart_log (payload : PersistedPayload) (tm : Team) (pts : Int)
    (pid : Option String) :
    (addPointsPlayersPart payload tm pts pid).actionLog = payload.actionLog := by
  unfold addPointsPlayersPart
  dsimp only
  split
  · rw [setPlayersList_actionLog]
  · rfl

theorem addPointsPlayersPart_getPlayers (payload : PersistedPayload) (tm : Team) (pts : Int)
    (pid : Option String) (ht : isTruthyId pid = true) :
    getPlayers (addPointsPlayersPart payload tm pts pid) tm =
      (getPlayers payload tm).map (fun p =>
        if p.id = pid.getD "" then
          { p with pts := p.pts + pts, tpm := p.tpm + (if pts = 3 then 1 else 0) }
        else p) := by
  unfold addPointsPlayersPart
  dsimp only
  rw [if_pos ht, getPlayers_setPlayersList, getPlayers_setState]

theorem addPointsEffectsPart_facts (p2 : PersistedPayload) (tm : Team) (pts : Int)
    (pid : Option String) (hpos : 0 < pts) :
    (addPointsEffectsPart p2 tm pts pid).state.possession = otherTeam tm ∧
    (addPointsEffectsPart p2 tm pts pid).state.shotClockSeconds = p2.state.shotClockDefault ∧
    (addPointsEffectsPart p2 tm pts pid).state.teamA = p2.state.teamA ∧
    (addPointsEffectsPart p2 tm pts pid).state.teamB = p2.state.teamB ∧
    (addPointsEffectsPart p2 tm pts pid).actionLog.length = min 250 (p2.actionLog.length + 1) := by
  unfold addPointsEffectsPart
  rw [if_pos (show pts > 0 from hpos)]
  dsimp only
  cases hpl : (if isTruthyId pid = true then findById (pid.getD "") (getPlayers p2 tm) else none) with
  | none =>
    dsimp only
    split <;> first
      | exact ⟨rfl, rfl, rfl, rfl, logLen_withActionLog _ _⟩
      | (split <;> exact ⟨rfl, rfl, rfl, rfl, logLen_withActionLog _ _⟩)
  | some pl =>
    dsimp only
    split <;> first
      | exact ⟨rfl, rfl, rfl, rfl, logLen_withActionLog _ _⟩
      | (split <;> exact ⟨rfl, rfl, rfl, rfl, logLen_withActionLog _ _⟩)

theorem addPointsWrap_pres (p3 : PersistedPayload) (team : Team) (pid : Option String) :
    (maybeAutoTeamComparison (if isTruthyId pid = true then
        maybeAutoPlayerHighlight p3 team (pid.getD "") else p3)).players = p3.players ∧
    (maybeAutoTeamComparison (if isTruthyId pid = true then
        maybeAutoPlayerHighlight p3 team (pid.getD "") else p3)).state.teamA = p3.state.teamA ∧
    (maybeAutoTeamComparison (if isTruthyId pid = true then
        maybeAutoPlayerHighlight p3 team (pid.getD "") else p3)).state.teamB = p3.state.teamB ∧
    (maybeAutoTeamComparison (if isTruthyId pid = true then
        maybeAutoPlayerHighlight p3 team (pid.getD "") else p3)).state.possession
      = p3.state.possession ∧
    (maybeAutoTeamComparison (if isTruthyId pid = true then
        maybeAutoPlayerHighlight p3 team (pid.getD "") else p3)).state.shotClockSeconds
      = p3.state.shotClockSeconds := by
  split
  · refine ⟨?_, ?_, ?_, ?_, ?_⟩
    · rw [(maybeAutoTeamComparison_pres _).1, (maybeAutoPlayerHighlight_pres _ _ _).1]
    · rw [(maybeAutoTeamComparison_pres _).2.1, (maybeAutoPlayerHighlight_pres _ _ _).2.1]
    · rw [(maybeAutoTeamComparison_pres _).2.2.1, (maybeAutoPlayerHighlight_pres _ _ _).2.2.1]
    · rw [(maybeAutoTeamComparison_pres _).2.2.2.1, (maybeAutoPlayerHighlight_pres _ _ _).2.2.2.1]
    · rw [(maybeAutoTeamComparison_pres _).2.2.2.2.1,
        (maybeAutoPlayerHighlight_pres _ _ _).2.2.2.2.1]
  · exact ⟨(maybeAutoTeamComparison_pres _).1, (maybeAutoTeamComparison_pres _).2.1,
      (maybeAutoTeamComparison_pres _).2.2.1, (maybeAutoTeamComparison_pres _).2.2.2.1,
      (maybeAutoTeamComparison_pres _).2.2.2.2.1⟩

theorem addPointsWrap_log (p3 : PersistedPayload) (team : Team) (pid : Option String)
    (n : Nat) (hn : n ≤ p3.actionLog.length) (h250 : n ≤ 250) :
    n ≤ (maybeAutoTeamComparison (if isTruthyId pid = true then
        maybeAutoPlayerHighlight p3 team (pid.getD "") else p3)).actionLog.length := by
  apply logLen_maybeAutoTeamComparison
  · split
    · exact logLen_maybeAutoPlayerHighlight _ _ _ n hn h250
    · exact hn
  · exact h250

/-- Claim C4, counterexample: from the default snapshot, `ADD_POINTS` with
`points = -1` clamps the team-A score at zero but does not flip possession
(it stays with team A, not B) and appends no log entry — the claimed general
behavior (log entry, possession flip, shot-clock reset) holds only for a
strictly positive point value. -/
theorem c4_counterexample :
    (reducer (defaultPayload 0) (ScoreboardAction.ADD_POINTS Team.A (-1) none) 0).state.teamA.score
        = 0 ∧
    (reducer (defaultPayload 0)
        (ScoreboardAction.ADD_POINTS Team.A (-1) none) 0).state.possession ≠ Team.B ∧
    (reducer (defaultPayload 0) (ScoreboardAction.ADD_POINTS Team.A (-1) none) 0).actionLog = [] := by
  refine ⟨by decide, by decide, by decide⟩

/-- Claim C4 (amended): Scenario A holds exactly as stated — from the default
snapshot, `ADD_POINTS(team = A, points = 3, playerId = first A player)` yields
team-A score 3, that player's `pts = 3` and `tpm = 1`, possession flipped to
B and the shot clock reset to 24. In general, for a non-final snapshot and a
strictly positive point value, `ADD_POINTS` clamps the team score at a
minimum of zero, appends a log entry, flips possession to the other team,
resets the shot clock to the configured default, and attributes the points
(plus the three-point counter exactly when `points = 3`) to the named
player; a zero-point add is a no-op, and a negative add only adjusts scores. -/
theorem c4_amended :
    ((reducer (defaultPayload 0)
        (ScoreboardAction.ADD_POINTS Team.A 3 (some "A-0-0")) 0).state.teamA.score = 3 ∧
     (findById "A-0-0" (reducer (defaultPayload 0)
        (ScoreboardAction.ADD_POINTS Team.A 3 (some "A-0-0")) 0).players.A).map
          (fun p => p.pts) = some 3 ∧
     (findById "A-0-0" (reducer (defaultPayload 0)
        (ScoreboardAction.ADD_POINTS Team.A 3 (some "A-0-0")) 0).players.A).map
          (fun p => p.tpm) = some 1 ∧
     (reducer (defaultPayload 0)
        (ScoreboardAction.ADD_POINTS Team.A 3 (some "A-0-0")) 0).state.possession = Team.B ∧
     (reducer (defaultPayload 0)
        (ScoreboardAction.ADD_POINTS Team.A 3 (some "A-0-0")) 0).state.shotClockSeconds = 24) ∧
    (∀ (payload : PersistedPayload) (team : Team) (points : Int) (playerId : Option String)
        (now : Int), payload.state.gameFinal = false → 0 < points →
      (teamRec (reducer payload (ScoreboardAction.ADD_POINTS team points playerId) now).state
          team).score = max 0 ((teamRec payload.state team).score + points) ∧
      (reducer payload (ScoreboardAction.ADD_POINTS team points playerId) now).state.possession
        = otherTeam team ∧
      (reducer payload (ScoreboardAction.ADD_POINTS team points playerId) now).state.shotClockSeconds
        = payload.state.shotClockDefault ∧
      min 250 (payload.actionLog.length + 1)
        ≤ (reducer payload (ScoreboardAction.ADD_POINTS team points playerId) now).actionLog.length ∧
      (∀ (pid0 : String) (pl : PlayerState), playerId = some pid0 → pid0.isEmpty = false →
        findById pid0 (getPlayers payload team) = some pl →
        findById pid0
            (getPlayers (reducer payload (ScoreboardAction.ADD_POINTS team points playerId) now)
              team)
          = some (addPointsTo pl points))) := by
  constructor
  · refine ⟨by decide, by decide, by decide, by decide, by decide⟩
  · intro payload team points playerId now hfinal hpos
    have hne0 : ¬points = 0 := by omega
    have hred : reducer payload (ScoreboardAction.ADD_POINTS team points playerId) now
        = maybeAutoTeamComparison (if isTruthyId playerId = true then
            maybeAutoPlayerHighlight
              (addPointsEffectsPart (addPointsPlayersPart payload team points playerId)
                team points playerId) team (playerId.getD "")
          else addPointsEffectsPart (addPointsPlayersPart payload team points playerId)
                team points playerId) := by
      show applyAddPoints payload team points playerId = _
      unfold applyAddPoints
      rw [if_neg (by rw [hfinal]; exact Bool.false_ne_true), if_neg hne0]
    rw [hred]
    have hwrap := addPointsWrap_pres
      (addPointsEffectsPart (addPointsPlayersPart payload team points playerId)
        team points playerId) team playerId
    have heff := addPointsEffectsPart_facts (addPointsPlayersPart payload team points playerId)
      team points playerId hpos
    have hstate := addPointsPlayersPart_state payload team points playerId
    refine ⟨?_, ?_, ?_, ?_, ?_⟩
    · rw [teamRec_congr _ _ hwrap.2.1 hwrap.2.2.1 team,
        teamRec_congr _ _ heff.2.2.1 heff.2.2.2.1 team, hstate, teamRec_setTeamRec]
    · rw [hwrap.2.2.2.1, heff.1]
    · rw [hwrap.2.2.2.2, heff.2.1, hstate, setTeamRec_shotClockDefault]
    · apply addPointsWrap_log
      · rw [heff.2.2.2.2, addPointsPlayersPart_log]
      · omega
    · intro pid0 pl hpid hempty hfind
      have ht : isTruthyId playerId = true := by
        rw [hpid]
        show (!pid0.isEmpty) = true
        rw [hempty]
        rfl
      rw [getPlayers_congr _ _ hwrap.1 team,
        getPlayers_congr _ _ (addPointsEffectsPart_players _ _ _ _) team,
        addPointsPlayersPart_getPlayers payload team points playerId ht]
      have hidpres : ∀ p : PlayerState,
          ((fun p => if p.id = playerId.getD "" then
            { p with pts := p.pts + points, tpm := p.tpm + (if points = 3 then 1 else 0) }
          else p) p).id = p.id := by
        intro p
        dsimp only
        split <;> rfl
      rw [findById_map _ _ hidpres]
      rw [hpid] at ht ⊢
      show (Option.map _ (findById pid0 (getPlayers payload team))) = _
      rw [hfind]
      have hplid : pl.id = pid0 := findById_id pid0 _ pl hfind
      show some (if pl.id = (some pid0).getD "" then
          { pl with pts := pl.pts + points, tpm := pl.tpm + (if points = 3 then 1 else 0) }
        else pl) = _
      rw [if_pos (by rw [hplid]; rfl)]
      rfl

/-- Witness for the general clause of C4 (amended) at a concrete input. -/
theorem c4_amended_witness :
    (defaultPayload 0).state.gameFinal = false ∧
      (reducer (defaultPayload 0) (ScoreboardAction.ADD_POINTS Team.B 2 none) 0).state.possession
        = otherTeam Team.B :=
  ⟨rfl, ((c4_amended.2 (defaultPayload 0) Team.B 2 none 0 rfl (by decide)).2.1)⟩

/-- Claim C5: with no active overlay, when a TICK brings the running game
clock to zero: below the final quarter the quarter advances by one, both
clocks reset to their configured full values, the shot-clock violation flag
clears, and both clocks stop; in the final quarter the terminal `gameFinal`
flag is set instead and the quarter does not advance (Scenario C is the
witness instance). -/
theorem c5_confirmed (payload : PersistedPayload) (now : Int)
    (hov : payload.state.overlayMode = none)
    (hrun : payload.state.gameClockRunning = true)
    (hsec : payload.state.gameClockSeconds ≤ 1) :
    (payload.state.quarter < payload.state.totalQuarters →
      (reducer payload ScoreboardAction.TICK now).state.quarter = payload.state.quarter + 1 ∧
      (reducer payload ScoreboardAction.TICK now).state.gameClockSeconds
        = payload.state.quarterLengthMinutes * 60 ∧
      (reducer payload ScoreboardAction.TICK now).state.shotClockSeconds
        = payload.state.shotClockDefault ∧
      (reducer payload ScoreboardAction.TICK now).state.shotViolation = false ∧
      (reducer payload ScoreboardAction.TICK now).state.gameClockRunning = false ∧
      (reducer payload ScoreboardAction.TICK now).state.shotClockRunning = false) ∧
    (payload.state.totalQuarters ≤ payload.state.quarter →
      (reducer payload ScoreboardAction.TICK now).state.gameFinal = true ∧
      (reducer payload ScoreboardAction.TICK now).state.quarter = payload.state.quarter) := by
  show (_ → _) ∧ (_ → _)
  have hred : reducer payload ScoreboardAction.TICK now = applyTick payload := rfl
  rw [hred]
  unfold applyTick
  dsimp only
  rw [if_neg (show ¬(payload.state.overlayMode.isSome = true) by rw [hov]; decide)]
  have hg : (0 : Int) ⊔ (payload.state.gameClockSeconds - 1) = 0 := sup_eq_left.mpr (by omega)
  constructor
  · intro hlt
    simp [hrun, hg, hlt]
  · intro hge
    have hnlt : ¬(payload.state.quarter < payload.state.totalQuarters) := by omega
    simp [hrun, hg, hnlt, ge_iff_le, hge]

/-- Witness for C5 at Scenario C: game clock running at one second, quarter 1
of 4; one tick advances to quarter 2 with both clocks stopped. -/
theorem c5_confirmed_witness :
    (reducer { c6Payload with state := { c6Payload.state with gameClockSeconds := 1 } }
        ScoreboardAction.TICK 0).state.quarter = 2 ∧
      (reducer { c6Payload with state := { c6Payload.state with gameClockSeconds := 1 } }
        ScoreboardAction.TICK 0).state.gameClockRunning = false := by
  have h := (c5_confirmed
    { c6Payload with state := { c6Payload.state with gameClockSeconds := 1 } } 0
    rfl rfl (by decide)).1 (by decide)
  exact ⟨h.1, h.2.2.2.2.1⟩

/-- Claim C10: on a finalized snapshot, `START_GAME` (with no overlay
active), `RESET_QUARTER`, `PREV_QUARTER` and `NEXT_QUARTER` all yield a
snapshot with `gameFinal = false` — finalization is reversible through these
operations. -/
theorem c10_confirmed (payload : PersistedPayload) (now : Int) :
    (payload.state.overlayMode = none →
      (reducer payload ScoreboardAction.START_GAME now).state.gameFinal = false) ∧
    (reducer payload ScoreboardAction.RESET_QUARTER now).state.gameFinal = false ∧
    (reducer payload ScoreboardAction.PREV_QUARTER now).state.gameFinal = false ∧
    (reducer payload ScoreboardAction.NEXT_QUARTER now).state.gameFinal = false := by
  refine ⟨?_, rfl, rfl, rfl⟩
  intro hov
  show (if payload.state.overlayMode.isSome = true then payload else _).state.gameFinal = false
  rw [if_neg (show ¬(payload.state.overlayMode.isSome = true) by rw [hov]; decide)]

/-- Witness for C10 at a finalized snapshot: `START_GAME` reopens the game. -/
theorem c10_confirmed_witness :
    (reducer { defaultPayload 0 with
        state := { defaultState with gameFinal := true } } ScoreboardAction.START_GAME 0).state.gameFinal
      = false :=
  (c10_confirmed { defaultPayload 0 with state := { defaultState with gameFinal := true } } 0).1 rfl

/-- Claim C6, counterexample: in `c6Payload` the game clock is running and
the shot clock is stopped; opening a timeout and then ending it sets the
shot clock running flag to `true`, not to its own pre-overlay value `false` —
only the game clock's pre-overlay running state is recorded, and both flags
are restored from that single flag. -/
theorem c6_counterexample :
    c6Payload.state.shotClockRunning = false ∧
    (reducer (reducer c6Payload (ScoreboardAction.OPEN_TIMEOUT Team.A 60) 0)
        (ScoreboardAction.END_OVERLAY (some true)) 0).state.shotClockRunning = true := by
  exact ⟨by decide, by decide⟩

/-- Claim C6 (amended): ending a timeout-type overlay — through its countdown
reaching zero during a TICK or through manual dismissal — sets both the game
clock's and the shot clock's running flags to the recorded
`overlayResumeGame` flag, which `OPEN_TIMEOUT` records as the game clock's
(only) pre-overlay running state; a halftime-type overlay instead advances
the quarter counter from 2 to 3 when the format has at least 3 quarters. -/
theorem c6_amended (payload : PersistedPayload) (now : Int) :
    (payload.state.overlayMode = some OverlayMode.timeout →
      ∀ manual : Option Bool,
        (reducer payload (ScoreboardAction.END_OVERLAY manual) now).state.gameClockRunning
          = payload.state.overlayResumeGame ∧
        (reducer payload (ScoreboardAction.END_OVERLAY manual) now).state.shotClockRunning
          = payload.state.overlayResumeGame ∧
        (reducer payload (ScoreboardAction.END_OVERLAY manual) now).state.overlayMode = none) ∧
    (payload.state.overlayMode = some OverlayMode.timeout →
      payload.state.overlayRemainingSeconds ≤ 1 →
      (reducer payload ScoreboardAction.TICK now).state.gameClockRunning
        = payload.state.overlayResumeGame ∧
      (reducer payload ScoreboardAction.TICK now).state.shotClockRunning
        = payload.state.overlayResumeGame ∧
      (reducer payload ScoreboardAction.TICK now).state.overlayMode = none) ∧
    (∀ (team : Team) (seconds : Int),
      (reducer payload (ScoreboardAction.OPEN_TIMEOUT team seconds) now).state.overlayResumeGame
        = payload.state.gameClockRunning) ∧
    (payload.state.overlayMode = some OverlayMode.halftime →
      payload.state.quarter = 2 → 3 ≤ payload.state.totalQuarters →
      ∀ manual : Option Bool,
        (reducer payload (ScoreboardAction.END_OVERLAY manual) now).state.quarter = 3 ∧
        (reducer payload (ScoreboardAction.END_OVERLAY manual) now).state.overlayMode = none) := by
  refine ⟨?_, ?_, ?_, ?_⟩
  · intro hov manual
    have hred : reducer payload (ScoreboardAction.END_OVERLAY manual) now = endOverlay payload := rfl
    rw [hred]
    unfold endOverlay
    rw [hov]
    exact ⟨rfl, rfl, rfl⟩
  · intro hov hrem
    have hred : reducer payload ScoreboardAction.TICK now = applyTick payload := rfl
    rw [hred]
    unfold applyTick
    dsimp only
    rw [if_pos (show payload.state.overlayMode.isSome = true by rw [hov]; rfl)]
    have h0 : (0 : Int) ⊔ (payload.state.overlayRemainingSeconds - 1) = 0 :=
      sup_eq_left.mpr (by omega)
    rw [if_pos (show (0 : Int) ⊔ (payload.state.overlayRemainingSeconds - 1) ≤ 0 from
      le_of_eq h0)]
    unfold endOverlay
    dsimp only
    rw [hov]
    exact ⟨rfl, rfl, rfl⟩
  · intro team seconds
    have hred : reducer payload (ScoreboardAction.OPEN_TIMEOUT team seconds) now
        = applyOpenTimeout payload team seconds := rfl
    rw [hred]
    unfold applyOpenTimeout
    dsimp only
    cases team <;> rfl
  · intro hov hq ht manual
    have hred : reducer payload (ScoreboardAction.END_OVERLAY manual) now = endOverlay payload := rfl
    rw [hred]
    unfold endOverlay
    rw [hov]
    dsimp only
    rw [if_pos (show _ ∧ _ from ⟨hq, ht⟩)]
    exact ⟨rfl, rfl⟩

/-- Witness for C6 (amended): ending the timeout opened on `c6Payload`
restores the game clock's recorded running state (`true`) to both flags. -/
theorem c6_amended_witness :
    (reducer (reducer c6Payload (ScoreboardAction.OPEN_TIMEOUT Team.B 30) 0)
        (ScoreboardAction.END_OVERLAY none) 0).state.gameClockRunning
      = (reducer c6Payload (ScoreboardAction.OPEN_TIMEOUT Team.B 30) 0).state.overlayResumeGame ∧
    (reducer (reducer c6Payload (ScoreboardAction.OPEN_TIMEOUT Team.B 30) 0)
        (ScoreboardAction.END_OVERLAY none) 0).state.overlayMode = none :=
  ⟨((c6_amended (reducer c6Payload (ScoreboardAction.OPEN_TIMEOUT Team.B 30) 0) 0).1
      (by decide) none).1,
   ((c6_amended (reducer c6Payload (ScoreboardAction.OPEN_TIMEOUT Team.B 30) 0) 0).1
      (by decide) none).2.2⟩

/-! ### Lemmas for the auto player-milestone highlight (claim C7) -/

theorem canAutoHighlight_eq_true (p : PersistedPayload) (h : canAutoHighlight p = true) :
    p.state.tvStarPlayer = none ∧ p.state.tvTeamComparison = none ∧
      p.state.tvAutoCooldownSeconds ≤ 0 := by
  unfold canAutoHighlight at h
  simp only [Bool.and_eq_true, Option.isNone_iff_eq_none, decide_eq_true_eq] at h
  exact ⟨h.1.1, h.1.2, h.2⟩

theorem showOpt_fired (p : PersistedPayload) (tm : Team) (pid r k : String)
    (q : PersistedPayload) (h : showAutoPlayerHighlightOpt p tm pid r k = some q) :
    canAutoHighlight p = true ∧ p.state.tvAutoSeen.contains k = false ∧
    q.state.tvAutoCooldownSeconds = HIGHLIGHT_COOLDOWN_SECONDS ∧
    q.state.tvAutoSeen.contains k = true ∧ q.state.tvStarPlayer.isSome = true := by
  unfold showAutoPlayerHighlightOpt at h
  by_cases h1 : (!canAutoHighlight p) = true
  · rw [if_pos h1] at h; exact absurd h (by simp)
  · rw [if_neg h1] at h
    by_cases h2 : p.state.tvAutoSeen.contains k = true
    · rw [if_pos h2] at h; exact absurd h (by simp)
    · rw [if_neg h2] at h
      cases hf : findById pid (getPlayers p tm) with
      | none => rw [hf] at h; exact absurd h (by simp)
      | some player =>
        rw [hf] at h
        have hq := Option.some.inj h
        rw [← hq]
        refine ⟨by simpa using h1, by simpa using h2, rfl, ?_, rfl⟩
        show (((k :: p.state.tvAutoSeen.filter (fun item => item != k)).take (399 + 1)).contains k)
          = true
        rw [List.take_succ_cons]
        simp

theorem tryPlayerMilestone_fired (p : PersistedPayload) (tm : Team) (pid : String)
    (player : PlayerState) (s : TrackedStat) (q : PersistedPayload)
    (h : tryPlayerMilestone p tm pid player s = some q) :
    0 < highestMilestone (statValue player s) (statMilestones s) ∧
    statValue player s = maxStat p s ∧
    canAutoHighlight p = true ∧
    p.state.tvAutoSeen.contains
      (statKey tm player.id s (highestMilestone (statValue player s) (statMilestones s))) = false ∧
    q.state.tvAutoCooldownSeconds = HIGHLIGHT_COOLDOWN_SECONDS ∧
    q.state.tvAutoSeen.contains
      (statKey tm player.id s (highestMilestone (statValue player s) (statMilestones s))) = true ∧
    q.state.tvStarPlayer.isSome = true := by
  simp only [tryPlayerMilestone] at h
  split at h
  · rename_i hguard
    have hs := showOpt_fired _ _ _ _ _ _ h
    exact ⟨hguard.1, hguard.2, hs.1, hs.2.1, hs.2.2.1, hs.2.2.2.1, hs.2.2.2.2⟩
  · exact absurd h (by simp)

/-- Claim C7, counterexample: in `c7TiePayload` two team-A players are tied
for the league-wide points maximum at 10 (a reached milestone), yet the
auto player-milestone highlight fires for `"a1"` — a tie for the maximum
does not suppress firing, contradicting the strict-leader condition (c). -/
theorem c7_counterexample :
    (findById "a1" c7TiePayload.players.A).map (fun p => p.pts) = some 10 ∧
    (findById "a2" c7TiePayload.players.A).map (fun p => p.pts) = some 10 ∧
    (autoPlayerHighlightResult c7TiePayload Team.A "a1").isSome = true := by
  exact ⟨by decide, by decide, by decide⟩

/-- Claim C7 (amended): the auto player-milestone highlight fires only if
(a) no star-player or team-comparison highlight is showing, (b) the global
cooldown counter is at or below zero, (c) the player's value for the firing
stat has reached a positive milestone and equals the league-wide maximum for
that stat (ties for the maximum do not suppress firing), and (d) the
composite key (stat, playerId, threshold) has not previously fired; firing
records the key in the seen set and starts the 22-second cooldown. -/
theorem c7_amended (payload : PersistedPayload) (team : Team) (playerId : String)
    (out : PersistedPayload) (h : autoPlayerHighlightResult payload team playerId = some out) :
    payload.state.tvStarPlayer = none ∧ payload.state.tvTeamComparison = none ∧
    payload.state.tvAutoCooldownSeconds ≤ 0 ∧
    ∃ (player : PlayerState) (s : TrackedStat),
      findById playerId (getPlayers payload team) = some player ∧
      0 < highestMilestone (statValue player s) (statMilestones s) ∧
      statValue player s = maxStat payload s ∧
      payload.state.tvAutoSeen.contains
        (statKey team player.id s
          (highestMilestone (statValue player s) (statMilestones s))) = false ∧
      out.state.tvAutoCooldownSeconds = HIGHLIGHT_COOLDOWN_SECONDS ∧
      out.state.tvAutoSeen.contains
        (statKey team player.id s
          (highestMilestone (statValue player s) (statMilestones s))) = true ∧
      out.state.tvStarPlayer.isSome = true := by
  unfold autoPlayerHighlightResult at h
  cases hfind : findById playerId (getPlayers payload team) with
  | none => rw [hfind] at h; exact absurd h (by simp)
  | some player =>
    rw [hfind] at h
    dsimp only at h
    have hfin : ∃ s q0, tryPlayerMilestone payload team playerId player s = some q0 ∧ q0 = out := by
      cases h1 : tryPlayerMilestone payload team playerId player .pts with
      | some q1 =>
        rw [h1] at h; dsimp only [Option.orElse] at h
        exact ⟨.pts, q1, h1, Option.some.inj h⟩
      | none =>
        rw [h1] at h; dsimp only [Option.orElse] at h
        cases h2 : tryPlayerMilestone payload team playerId player .reb with
        | some q2 =>
          rw [h2] at h; dsimp only [Option.orElse] at h
          exact ⟨.reb, q2, h2, Option.some.inj h⟩
        | none =>
          rw [h2] at h; dsimp only [Option.orElse] at h
          cases h3 : tryPlayerMilestone payload team playerId player .stl with
          | some q3 =>
            rw [h3] at h; dsimp only [Option.orElse] at h
            exact ⟨.stl, q3, h3, Option.some.inj h⟩
          | none =>
            rw [h3] at h; dsimp only [Option.orElse] at h
            cases h4 : tryPlayerMilestone payload team playerId player .blk with
            | some q4 =>
              rw [h4] at h; dsimp only [Option.orElse] at h
              exact ⟨.blk, q4, h4, Option.some.inj h⟩
            | none =>
              rw [h4] at h; dsimp only [Option.orElse] at h
              exact ⟨.tpm, out, h, rfl⟩
    obtain ⟨s, q0, hq0, hout⟩ := hfin
    rw [hout] at hq0
    have hf := tryPlayerMilestone_fired payload team playerId player s out hq0
    have hcan := canAutoHighlight_eq_true payload hf.2.2.1
    exact ⟨hcan.1, hcan.2.1, hcan.2.2,
      player, s, rfl, hf.1, hf.2.1, hf.2.2.2.1, hf.2.2.2.2.1, hf.2.2.2.2.2.1, hf.2.2.2.2.2.2⟩

/-- Witness for C7 (amended): a legitimate firing on `c7LeadPayload` (sole
points leader at 12) satisfies the extracted conditions. -/
theorem c7_amended_witness :
    c7LeadPayload.state.tvStarPlayer = none ∧
      c7LeadPayload.state.tvAutoCooldownSeconds ≤ 0 ∧
      c7LeadOut.state.tvStarPlayer.isSome = true := by
  have h := c7_amended c7LeadPayload Team.A "a1" c7LeadOut (by decide)
  obtain ⟨h1, h2, h3, player, s, rest⟩ := h
  exact ⟨h1, h3, rest.2.2.2.2.2.2⟩

/-! ### Codec round-trip (claims C8 and C9) -/

theorem normalizeAux_map (fallback : List PlayerState) (l : List PlayerState) :
    ∀ idx, normalizePlayersAux fallback idx (l.map toParsedPlayer) = l := by
  induction l with
  | nil => intro idx; rfl
  | cons p rest ih =>
    intro idx
    show mergePlayer (fallbackAt fallback idx) (toParsedPlayer p) ::
        normalizePlayersAux fallback (idx + 1) (rest.map toParsedPlayer) = p :: rest
    rw [ih (idx + 1)]
    show mergePlayer (fallbackAt fallback idx) (toParsedPlayer p) :: rest = p :: rest
    exact rfl

theorem parse_save_roundtrip (payload : PersistedPayload) (saveNow parseNow : Int) :
    parsePayload (savePayload payload saveNow) parseNow =
      some { payload with updatedAt := saveNow } := by
  have h1 : parsePayload (savePayload payload saveNow) parseNow =
      some
        { state := mergeState (defaultPayload parseNow).state (toParsedState payload.state)
          players :=
            { A := normalizePlayersAux (defaultPayload parseNow).players.A 0
                (payload.players.A.map toParsedPlayer)
              B := normalizePlayersAux (defaultPayload parseNow).players.B 0
                (payload.players.B.map toParsedPlayer) }
          actionLog := payload.actionLog
          updatedAt := saveNow } := rfl
  rw [h1, normalizeAux_map, normalizeAux_map]
  exact rfl

/-- Claim C8, counterexample: the round-trip `decode(encode(s)) == s` fails
verbatim because `savePayload` restamps `updatedAt` with the save-time clock
before serializing. Saving `c8Payload` (whose `updatedAt` is 5) at time 7 and
decoding at time 0 yields a snapshot whose `updatedAt` is 7, not the original. -/
theorem c8_counterexample :
    c8Payload.updatedAt = 5 ∧
    (parsePayload (savePayload c8Payload 7) 0).map (fun q => q.updatedAt) = some 7 ∧
    parsePayload (savePayload c8Payload 7) 0 ≠ some c8Payload := by
  refine ⟨rfl, ?_, ?_⟩
  · rw [parse_save_roundtrip]; rfl
  · rw [parse_save_roundtrip]
    intro h
    have h2 := congrArg (fun o => (o.map (fun q => q.updatedAt)).getD 0) h
    simp only [Option.map_some, Option.getD_some] at h2
    exact absurd h2 (by decide)

/-- Claim C8 (amended): decoding an encoded snapshot recovers it exactly
except for `updatedAt`, which is restamped with the save-time clock:
`decode(encode(s)) = s with updatedAt := saveNow`. In particular the
round-trip is the identity on `state`, `players` and `actionLog`. Decoding
malformed input yields the absent result rather than throwing, and encoding
is total by construction. -/
theorem c8_amended (payload : PersistedPayload) (saveNow parseNow : Int) :
    parsePayload (savePayload payload saveNow) parseNow =
      some { payload with updatedAt := saveNow } ∧
    (parsePayload (savePayload payload saveNow) parseNow).map (fun q => q.state) =
      some payload.state ∧
    (parsePayload (savePayload payload saveNow) parseNow).map (fun q => q.players) =
      some payload.players ∧
    (parsePayload (savePayload payload saveNow) parseNow).map (fun q => q.actionLog) =
      some payload.actionLog ∧
    parsePayload RawPayloadText.malformed parseNow = none := by
  refine ⟨parse_save_roundtrip payload saveNow parseNow, ?_, ?_, ?_, rfl⟩ <;>
    rw [parse_save_roundtrip] <;> rfl

/-- Claim C9 (confirmed): for a store-change notification under either
compatibility key, the local snapshot is replaced wholesale by the decoded
external snapshot iff decoding succeeds and the external `updatedAt`
strictly exceeds the local one; an external snapshot with `updatedAt` at or
below the local value, an undecodable value, or an absent value leaves the
local snapshot unchanged. -/
theorem c9_confirmed (lp : PersistedPayload) (eventKey : String) (raw : RawPayloadText)
    (now : Int) (hkey : eventKey = STORAGE_KEY_V3 ∨ eventKey = STORAGE_KEY_V5) :
    (∀ ext, parsePayload raw now = some ext →
        (lp.updatedAt < ext.updatedAt →
          handleStorageEvent lp eventKey (some raw) now = ext) ∧
        (ext.updatedAt ≤ lp.updatedAt →
          handleStorageEvent lp eventKey (some raw) now = lp)) ∧
    (parsePayload raw now = none → handleStorageEvent lp eventKey (some raw) now = lp) ∧
    handleStorageEvent lp eventKey none now = lp := by
  have hcond : ¬(eventKey ≠ STORAGE_KEY_V3 ∧ eventKey ≠ STORAGE_KEY_V5) := by
    rcases hkey with h | h <;> simp [h]
  refine ⟨?_, ?_, rfl⟩
  · intro ext hext
    constructor
    · intro hlt
      unfold handleStorageEvent
      dsimp only
      rw [if_neg hcond, hext]
      dsimp only
      rw [if_neg (by omega : ¬ ext.updatedAt ≤ lp.updatedAt)]
      rfl
    · intro hle
      unfold handleStorageEvent
      dsimp only
      rw [if_neg hcond, hext]
      dsimp only
      rw [if_pos hle]
  · intro hnone
    unfold handleStorageEvent
    dsimp only
    rw [if_neg hcond, hnone]

/-- Witness for C9: Scenario D concretely — an observer holding
`updatedAt = 150` rejects an external write stamped `updatedAt = 120`
arriving under the v5 key, keeping its local snapshot. -/
theorem c9_confirmed_witness :
    handleStorageEvent c9Local STORAGE_KEY_V5 (some c9Raw) 0 = c9Local ∧
    c9Ext.updatedAt = 120 ∧ c9Local.updatedAt = 150 := by
  have h := c9_confirmed c9Local STORAGE_KEY_V5 c9Raw 0 (Or.inr rfl)
  have hext : parsePayload c9Raw 0 = some c9Ext := parse_save_roundtrip (defaultPayload 0) 120 0
  exact ⟨(h.1 c9Ext hext).2 (by decide), rfl, rfl⟩
